import Mathlib

/-!
Verification development for the ANGLE Vulkan resource-lifecycle helpers
(`src/libANGLE/renderer/vulkan/vk_helpers.cpp`).  The C++ code is shallowly
embedded: member functions become pure Lean functions over explicit state
records, device-side effects become recorded `Command` values, and fallible
device operations return an `Option` result together with the post state.
Line references in comments point into vk_helpers.cpp.
-/

namespace AngleVk

/-- Round `x` up to the next multiple of `multiple`.  Modelled from the spec:
`roundUp` lives in `common/mathutil.h`, which is not among the sources; the
spec states "Size is rounded up to the configured alignment". -/
def roundUp (x multiple : Nat) : Nat :=
  ((x + multiple - 1) / multiple) * multiple

/-- Rotate left on 64 bits, the `ANGLE_ROTL64` macro (`common/mathutil.h`, not among
the sources; the spec §9 calls it "a rotate-by-offset operation" on "a
fixed-width unsigned integer"). -/
def rotl64 (x r : Nat) : Nat :=
  (((x <<< (r % 64)) ||| (x >>> (64 - r % 64)))) % 2 ^ 64

/-- Constant from vk_helpers.cpp:2526. -/
def kMaxParallelSubresourceUpload : Nat := 64

/-- Value of `static_cast<uint32_t>(gl::ImageIndex::kEntireLevel)`, i.e. `uint32_t(-1)`. -/
def kEntireLevel : Nat := 4294967295

/-! Vulkan enum/flag values (vulkan_core.h), as plain naturals. -/

def VK_PIPELINE_STAGE_TOP_OF_PIPE_BIT : Nat := 0x00000001
def VK_PIPELINE_STAGE_EARLY_FRAGMENT_TESTS_BIT : Nat := 0x00000100
def VK_PIPELINE_STAGE_LATE_FRAGMENT_TESTS_BIT : Nat := 0x00000200
def VK_PIPELINE_STAGE_COLOR_ATTACHMENT_OUTPUT_BIT : Nat := 0x00000400
def VK_PIPELINE_STAGE_COMPUTE_SHADER_BIT : Nat := 0x00000800
def VK_PIPELINE_STAGE_TRANSFER_BIT : Nat := 0x00001000
def VK_PIPELINE_STAGE_BOTTOM_OF_PIPE_BIT : Nat := 0x00002000
def VK_PIPELINE_STAGE_HOST_BIT : Nat := 0x00004000
def VK_PIPELINE_STAGE_ALL_GRAPHICS_BIT : Nat := 0x00008000
def VK_PIPELINE_STAGE_ALL_COMMANDS_BIT : Nat := 0x00010000

def VK_ACCESS_SHADER_READ_BIT : Nat := 0x00000020
def VK_ACCESS_SHADER_WRITE_BIT : Nat := 0x00000040
def VK_ACCESS_COLOR_ATTACHMENT_READ_BIT : Nat := 0x00000080
def VK_ACCESS_COLOR_ATTACHMENT_WRITE_BIT : Nat := 0x00000100
def VK_ACCESS_DEPTH_STENCIL_ATTACHMENT_READ_BIT : Nat := 0x00000200
def VK_ACCESS_DEPTH_STENCIL_ATTACHMENT_WRITE_BIT : Nat := 0x00000400
def VK_ACCESS_TRANSFER_READ_BIT : Nat := 0x00000800
def VK_ACCESS_TRANSFER_WRITE_BIT : Nat := 0x00001000
def VK_ACCESS_MEMORY_WRITE_BIT : Nat := 0x00010000

def VK_IMAGE_LAYOUT_UNDEFINED : Nat := 0
def VK_IMAGE_LAYOUT_GENERAL : Nat := 1
def VK_IMAGE_LAYOUT_COLOR_ATTACHMENT_OPTIMAL : Nat := 2
def VK_IMAGE_LAYOUT_DEPTH_STENCIL_ATTACHMENT_OPTIMAL : Nat := 3
def VK_IMAGE_LAYOUT_SHADER_READ_ONLY_OPTIMAL : Nat := 5
def VK_IMAGE_LAYOUT_TRANSFER_SRC_OPTIMAL : Nat := 6
def VK_IMAGE_LAYOUT_TRANSFER_DST_OPTIMAL : Nat := 7
def VK_IMAGE_LAYOUT_PREINITIALIZED : Nat := 8
def VK_IMAGE_LAYOUT_PRESENT_SRC_KHR : Nat := 1000001002

/-- The external Serial Oracle / context collaborator.  `bufferCreationSucceeds`
models the outcome of fallible device buffer/memory creation. -/
structure ContextVk where
  currentQueueSerial : Nat
  lastCompletedQueueSerial : Nat
  bufferCreationSucceeds : Bool
deriving DecidableEq, Repr

/-- A serial is in use iff it is not yet retired by the oracle. -/
def ContextVk.isSerialInUse (ctx : ContextVk) (serial : Nat) : Bool :=
  ctx.lastCompletedQueueSerial < serial

/-- The `ImageLayout` enumeration (vk_helpers.h / spec §4.3). -/
inductive ImageLayout
  | Undefined
  | ExternalPreInitialized
  | TransferSrc
  | TransferDst
  | ComputeShaderReadOnly
  | ComputeShaderWrite
  | AllGraphicsShadersReadOnly
  | AllGraphicsShadersWrite
  | ColorAttachment
  | DepthStencilAttachment
  | Present
deriving DecidableEq, Repr

/-- Metadata record, vk_helpers.cpp:45-67. -/
structure ImageMemoryBarrierData where
  layout : Nat
  dstStageMask : Nat
  srcStageMask : Nat
  dstAccessMask : Nat
  srcAccessMask : Nat
  sameLayoutTransitionRequiresBarrier : Bool
deriving DecidableEq, Repr

/-- The per-layout barrier metadata table, vk_helpers.cpp:70-219. -/
def kImageMemoryBarrierData : ImageLayout → ImageMemoryBarrierData
  | .Undefined =>
      { layout := VK_IMAGE_LAYOUT_UNDEFINED
        dstStageMask := VK_PIPELINE_STAGE_BOTTOM_OF_PIPE_BIT
        srcStageMask := VK_PIPELINE_STAGE_TOP_OF_PIPE_BIT
        dstAccessMask := 0
        srcAccessMask := 0
        sameLayoutTransitionRequiresBarrier := false }
  | .ExternalPreInitialized =>
      { layout := VK_IMAGE_LAYOUT_PREINITIALIZED
        dstStageMask := VK_PIPELINE_STAGE_BOTTOM_OF_PIPE_BIT
        srcStageMask := VK_PIPELINE_STAGE_HOST_BIT ||| VK_PIPELINE_STAGE_ALL_COMMANDS_BIT
        dstAccessMask := 0
        srcAccessMask := VK_ACCESS_MEMORY_WRITE_BIT
        sameLayoutTransitionRequiresBarrier := false }
  | .TransferSrc =>
      { layout := VK_IMAGE_LAYOUT_TRANSFER_SRC_OPTIMAL
        dstStageMask := VK_PIPELINE_STAGE_TRANSFER_BIT
        srcStageMask := VK_PIPELINE_STAGE_TRANSFER_BIT
        dstAccessMask := VK_ACCESS_TRANSFER_READ_BIT
        srcAccessMask := 0
        sameLayoutTransitionRequiresBarrier := false }
  | .TransferDst =>
      { layout := VK_IMAGE_LAYOUT_TRANSFER_DST_OPTIMAL
        dstStageMask := VK_PIPELINE_STAGE_TRANSFER_BIT
        srcStageMask := VK_PIPELINE_STAGE_TRANSFER_BIT
        dstAccessMask := VK_ACCESS_TRANSFER_WRITE_BIT
        srcAccessMask := VK_ACCESS_TRANSFER_WRITE_BIT
        sameLayoutTransitionRequiresBarrier := true }
  | .ComputeShaderReadOnly =>
      { layout := VK_IMAGE_LAYOUT_SHADER_READ_ONLY_OPTIMAL
        dstStageMask := VK_PIPELINE_STAGE_COMPUTE_SHADER_BIT
        srcStageMask := VK_PIPELINE_STAGE_COMPUTE_SHADER_BIT
        dstAccessMask := VK_ACCESS_SHADER_READ_BIT
        srcAccessMask := 0
        sameLayoutTransitionRequiresBarrier := false }
  | .ComputeShaderWrite =>
      { layout := VK_IMAGE_LAYOUT_GENERAL
        dstStageMask := VK_PIPELINE_STAGE_COMPUTE_SHADER_BIT
        srcStageMask := VK_PIPELINE_STAGE_COMPUTE_SHADER_BIT
        dstAccessMask := VK_ACCESS_SHADER_READ_BIT ||| VK_ACCESS_SHADER_WRITE_BIT
        srcAccessMask := VK_ACCESS_SHADER_WRITE_BIT
        sameLayoutTransitionRequiresBarrier := true }
  | .AllGraphicsShadersReadOnly =>
      { layout := VK_IMAGE_LAYOUT_SHADER_READ_ONLY_OPTIMAL
        dstStageMask := VK_PIPELINE_STAGE_ALL_GRAPHICS_BIT
        srcStageMask := VK_PIPELINE_STAGE_ALL_GRAPHICS_BIT
        dstAccessMask := VK_ACCESS_SHADER_READ_BIT
        srcAccessMask := 0
        sameLayoutTransitionRequiresBarrier := false }
  | .AllGraphicsShadersWrite =>
      { layout := VK_IMAGE_LAYOUT_GENERAL
        dstStageMask := VK_PIPELINE_STAGE_ALL_GRAPHICS_BIT
        srcStageMask := VK_PIPELINE_STAGE_ALL_GRAPHICS_BIT
        dstAccessMask := VK_ACCESS_SHADER_READ_BIT ||| VK_ACCESS_SHADER_WRITE_BIT
        srcAccessMask := VK_ACCESS_SHADER_WRITE_BIT
        sameLayoutTransitionRequiresBarrier := true }
  | .ColorAttachment =>
      { layout := VK_IMAGE_LAYOUT_COLOR_ATTACHMENT_OPTIMAL
        dstStageMask := VK_PIPELINE_STAGE_COLOR_ATTACHMENT_OUTPUT_BIT
        srcStageMask := VK_PIPELINE_STAGE_COLOR_ATTACHMENT_OUTPUT_BIT
        dstAccessMask := VK_ACCESS_COLOR_ATTACHMENT_READ_BIT ||| VK_ACCESS_COLOR_ATTACHMENT_WRITE_BIT
        srcAccessMask := VK_ACCESS_COLOR_ATTACHMENT_WRITE_BIT
        sameLayoutTransitionRequiresBarrier := true }
  | .DepthStencilAttachment =>
      { layout := VK_IMAGE_LAYOUT_DEPTH_STENCIL_ATTACHMENT_OPTIMAL
        dstStageMask := VK_PIPELINE_STAGE_EARLY_FRAGMENT_TESTS_BIT |||
          VK_PIPELINE_STAGE_LATE_FRAGMENT_TESTS_BIT
        srcStageMask := VK_PIPELINE_STAGE_EARLY_FRAGMENT_TESTS_BIT |||
          VK_PIPELINE_STAGE_LATE_FRAGMENT_TESTS_BIT
        dstAccessMask := VK_ACCESS_DEPTH_STENCIL_ATTACHMENT_READ_BIT |||
          VK_ACCESS_DEPTH_STENCIL_ATTACHMENT_WRITE_BIT
        srcAccessMask := VK_ACCESS_DEPTH_STENCIL_ATTACHMENT_WRITE_BIT
        sameLayoutTransitionRequiresBarrier := true }
  | .Present =>
      { layout := VK_IMAGE_LAYOUT_PRESENT_SRC_KHR
        dstStageMask := VK_PIPELINE_STAGE_BOTTOM_OF_PIPE_BIT
        srcStageMask := VK_PIPELINE_STAGE_TOP_OF_PIPE_BIT
        dstAccessMask := 0
        srcAccessMask := 0
        sameLayoutTransitionRequiresBarrier := false }

/-- Structure `VkImageMemoryBarrier` with its `VkImageSubresourceRange` flattened in
(vk_helpers.cpp:1839-1854). -/
structure VkImageMemoryBarrier where
  srcAccessMask : Nat
  dstAccessMask : Nat
  oldLayout : Nat
  newLayout : Nat
  srcQueueFamilyIndex : Nat
  dstQueueFamilyIndex : Nat
  aspectMask : Nat
  baseMipLevel : Nat
  levelCount : Nat
  baseArrayLayer : Nat
  layerCount : Nat
deriving DecidableEq, Repr

/-- Commands appended to the open command record (the command-recording
collaborator).  `srcImageTransitionCmd` abstracts the layout transition of the
*source* image of an image-to-image copy (vk_helpers.cpp:2610-2613); the source
image is a separate object whose state is not tracked in this development. -/
inductive Command
  | executionBarrier (stageMask : Nat)
  | imageBarrier (srcStageMask dstStageMask : Nat) (barrier : VkImageMemoryBarrier)
  | clearColorCmd (baseMipLevel levelCount baseArrayLayer layerCount : Nat)
  | clearDepthStencilCmd (baseMipLevel levelCount baseArrayLayer layerCount : Nat)
  | copyBufferToImageCmd (mipLevel baseArrayLayer layerCount : Nat)
  | srcImageTransitionCmd
  | copyImageCmd (mipLevel baseArrayLayer layerCount : Nat)
deriving DecidableEq, Repr

/-! Section: DynamicBuffer (vk_helpers.cpp:259-605) -/

/-- A backing buffer generation (`BufferHelper`, restricted to the fields the
claims observe).  `id` models object identity (the C++ heap pointer). -/
structure BufferHelper where
  id : Nat
  size : Nat
  queueSerial : Nat
deriving DecidableEq, Repr

/-- State of a DynamicBuffer, vk_helpers.h / vk_helpers.cpp:260-269.  `mNextAllocationOffset` and
`mLastFlushOrInvalidateOffset` are `uint32_t` in the C++; updates to the former
truncate modulo `2^32` as the source's cast does.  `nextBufferId` models the
identity supply for freshly created buffers. -/
structure DynamicBuffer where
  mHostVisible : Bool
  mInitialSize : Nat
  mBuffer : Option BufferHelper
  mNextAllocationOffset : Nat
  mLastFlushOrInvalidateOffset : Nat
  mSize : Nat
  mAlignment : Nat
  mInFlightBuffers : List BufferHelper
  mBufferFreeList : List BufferHelper
  nextBufferId : Nat
deriving DecidableEq, Repr

/-- Model of `CommandGraphResource::isResourceInUse`: the buffer's stamped serial is not
yet retired by the oracle. -/
def BufferHelper.isResourceInUse (ctx : ContextVk) (b : BufferHelper) : Bool :=
  ctx.isSerialInUse b.queueSerial

/-- Model of `DynamicBuffer::flush`, vk_helpers.cpp:423-433.  The device-side
`mBuffer->flush` call is abstracted away; only the watermark update is
state. -/
def DynamicBuffer.flush (s : DynamicBuffer) : DynamicBuffer :=
  if s.mHostVisible ∧ s.mLastFlushOrInvalidateOffset < s.mNextAllocationOffset then
    { s with mLastFlushOrInvalidateOffset := s.mNextAllocationOffset }
  else s

/-- Model of `DynamicBuffer::allocateNewBuffer`, vk_helpers.cpp:316-337.  Buffer/memory
creation is fallible (`ANGLE_TRY(buffer->init(...))`); `mBuffer` is assigned
only after success.  Returns the post state and whether creation succeeded. -/
def DynamicBuffer.allocateNewBuffer (ctx : ContextVk) (s : DynamicBuffer) :
    DynamicBuffer × Bool :=
  if ctx.bufferCreationSucceeds then
    ({ s with
        mBuffer := some { id := s.nextBufferId, size := s.mSize, queueSerial := 0 }
        nextBufferId := s.nextBufferId + 1 }, true)
  else (s, false)

/-- Lines vk_helpers.cpp:353-361, the first block of `DynamicBuffer::allocate`:
flush pending writes, stamp the current submission serial and move the current
generation to the in-flight list. -/
def DynamicBuffer.retireCurrentBuffer (ctx : ContextVk) (s : DynamicBuffer) : DynamicBuffer :=
  match s.mBuffer with
  | some b =>
      let sf := s.flush
      { sf with
          mBuffer := none
          mInFlightBuffers :=
            sf.mInFlightBuffers ++ [{ b with queueSerial := ctx.currentQueueSerial }] }
  | none => s

/-- Lines vk_helpers.cpp:363-373, the second block of `DynamicBuffer::allocate`:
grow the target capacity to `max(mInitialSize, sizeToAllocate)` and clear the
free list, whose buffers are now too small. -/
def DynamicBuffer.growTargetSize (sizeToAllocate : Nat) (s : DynamicBuffer) : DynamicBuffer :=
  if s.mSize < sizeToAllocate then
    { s with mSize := max s.mInitialSize sizeToAllocate, mBufferFreeList := [] }
  else s

/-- Lines vk_helpers.cpp:375-385, the third block of `DynamicBuffer::allocate`:
reuse the front of the free list if it is no longer in use, otherwise create a
fresh backing buffer (fallibly). -/
def DynamicBuffer.selectNewBuffer (ctx : ContextVk) (s : DynamicBuffer) :
    DynamicBuffer × Bool :=
  match s.mBufferFreeList with
  | [] => s.allocateNewBuffer ctx
  | front :: rest =>
      if front.isResourceInUse ctx then s.allocateNewBuffer ctx
      else ({ s with mBuffer := some front, mBufferFreeList := rest }, true)

/-- Model of `DynamicBuffer::allocate`, vk_helpers.cpp:339-421.  Returns the post state
together with `some (offsetOut, newBufferAllocatedOut)` on success, or `none`
when a fallible device step failed (in which case the post state records the
mutations made before the failing step, as the C++ early return does). -/
def DynamicBuffer.allocate (ctx : ContextVk) (s : DynamicBuffer) (sizeInBytes : Nat) :
    DynamicBuffer × Option (Nat × Bool) :=
  let sizeToAllocate := roundUp sizeInBytes s.mAlignment
  let checkedNextWriteOffset := s.mNextAllocationOffset + sizeToAllocate
  if s.mSize ≤ checkedNextWriteOffset then
    match ((s.retireCurrentBuffer ctx).growTargetSize sizeToAllocate).selectNewBuffer ctx with
    | (serr, false) => (serr, none)
    | (s3, true) =>
        let s4 := { s3 with mNextAllocationOffset := 0, mLastFlushOrInvalidateOffset := 0 }
        ({ s4 with mNextAllocationOffset := (0 + sizeToAllocate) % 2 ^ 32 },
          some (0, true))
  else
    ({ s with
        mNextAllocationOffset := (s.mNextAllocationOffset + sizeToAllocate) % 2 ^ 32 },
      some (s.mNextAllocationOffset, false))

/-- Model of `DynamicBuffer::releaseInFlightBuffers`, vk_helpers.cpp:521-537.  Returns
the post state together with the permanently released generations. -/
def DynamicBuffer.releaseInFlightBuffers (s : DynamicBuffer) :
    DynamicBuffer × List BufferHelper :=
  ({ s with
      mInFlightBuffers := []
      mBufferFreeList :=
        s.mBufferFreeList ++ s.mInFlightBuffers.filter (fun b => ¬ b.size < s.mSize) },
    s.mInFlightBuffers.filter (fun b => b.size < s.mSize))

/-- Runs a sequence of `allocate` calls, recording for each successful call the
returned offset, the rounded size it consumed, and the new-generation flag.
The run stops at the first device failure, like the callers' `ANGLE_TRY`. -/
def DynamicBuffer.allocRun (ctx : ContextVk) (s : DynamicBuffer) :
    List Nat → DynamicBuffer × List (Nat × Nat × Bool)
  | [] => (s, [])
  | sz :: rest =>
      match s.allocate ctx sz with
      | (s', some r) =>
          let tail := s'.allocRun ctx rest
          (tail.1, (r.1, roundUp sz s.mAlignment, r.2) :: tail.2)
      | (s', none) => (s', [])

/-- The allocator still holds a buffer with identity `i` in one of its
compartments (current generation, in-flight list, or free list). -/
def DynamicBuffer.holdsId (s : DynamicBuffer) (i : Nat) : Prop :=
  (∃ b, s.mBuffer = some b ∧ b.id = i) ∨
  (∃ b ∈ s.mInFlightBuffers, b.id = i) ∨
  (∃ b ∈ s.mBufferFreeList, b.id = i)

/-! Section: ImageHelper: layout state machine and staged subresource updates
(vk_helpers.cpp:1585-2640) -/

/-- Model of `ImageHelper::SubresourceUpdate`, restricted to the fields the flush
algorithm reads: the tag and the destination (mip level, base layer, layer
count).  For a `Clear`, `layerCount` may be the `kEntireLevel` sentinel
(vk_helpers.cpp:2548). -/
inductive UpdateSource
  | Clear
  | Buffer
  | Image
deriving DecidableEq, Repr

structure SubresourceUpdate where
  updateSource : UpdateSource
  level : Nat
  baseLayer : Nat
  layerCount : Nat
deriving DecidableEq, Repr

/-- State of an `ImageHelper`.  `formatIsDepthStencil` models the format predicate
`angleFormat.depthBits > 0 || angleFormat.stencilBits > 0` used by `clear`
(vk_helpers.cpp:1914), and `aspectFlags` the value of
`GetFormatAspectFlags(mFormat->imageFormat())`. -/
structure ImageHelper where
  mCurrentLayout : ImageLayout
  mCurrentQueueFamilyIndex : Nat
  mLevelCount : Nat
  mLayerCount : Nat
  formatIsDepthStencil : Bool
  aspectFlags : Nat
  mSubresourceUpdates : List SubresourceUpdate
  mStagingBuffer : DynamicBuffer
deriving DecidableEq, Repr

/-- Model of `ImageHelper::isLayoutChangeNecessary`, vk_helpers.cpp:1777-1789. -/
def ImageHelper.isLayoutChangeNecessary (img : ImageHelper) (newLayout : ImageLayout) : Bool :=
  let layoutData := kImageMemoryBarrierData img.mCurrentLayout
  let sameLayoutAndNoNeedForBarrier :=
    img.mCurrentLayout = newLayout ∧ ¬ layoutData.sameLayoutTransitionRequiresBarrier
  ¬ sameLayoutAndNoNeedForBarrier

/-- Model of `ImageHelper::forceChangeLayoutAndQueue`, vk_helpers.cpp:1812-1860.
Returns the post state and the commands recorded into the command buffer.
Note the TransferDst exclusion from the execution-barrier fast path
(vk_helpers.cpp:1823-1824, the AMD workaround). -/
def ImageHelper.forceChangeLayoutAndQueue (img : ImageHelper) (aspectMask : Nat)
    (newLayout : ImageLayout) (newQueueFamilyIndex : Nat) : ImageHelper × List Command :=
  if img.mCurrentLayout = newLayout ∧ img.mCurrentQueueFamilyIndex = newQueueFamilyIndex ∧
      img.mCurrentLayout ≠ ImageLayout.TransferDst then
    let transition := kImageMemoryBarrierData img.mCurrentLayout
    (img, [Command.executionBarrier transition.dstStageMask])
  else
    let transitionFrom := kImageMemoryBarrierData img.mCurrentLayout
    let transitionTo := kImageMemoryBarrierData newLayout
    let imageMemoryBarrier : VkImageMemoryBarrier :=
      { srcAccessMask := transitionFrom.srcAccessMask
        dstAccessMask := transitionTo.dstAccessMask
        oldLayout := transitionFrom.layout
        newLayout := transitionTo.layout
        srcQueueFamilyIndex := img.mCurrentQueueFamilyIndex
        dstQueueFamilyIndex := newQueueFamilyIndex
        aspectMask := aspectMask
        baseMipLevel := 0
        levelCount := img.mLevelCount
        baseArrayLayer := 0
        layerCount := img.mLayerCount }
    ({ img with mCurrentLayout := newLayout, mCurrentQueueFamilyIndex := newQueueFamilyIndex },
      [Command.imageBarrier transitionFrom.srcStageMask transitionTo.dstStageMask
        imageMemoryBarrier])

/-- Model of `ImageHelper::changeLayout`, vk_helpers.cpp:1791-1801. -/
def ImageHelper.changeLayout (img : ImageHelper) (aspectMask : Nat)
    (newLayout : ImageLayout) : ImageHelper × List Command :=
  if ¬ img.isLayoutChangeNecessary newLayout then (img, [])
  else img.forceChangeLayoutAndQueue aspectMask newLayout img.mCurrentQueueFamilyIndex

/-- Model of `ImageHelper::clear`, vk_helpers.cpp:1907-1925 (dispatching to `clearColor`
or `clearDepthStencil`, each with level count 1). -/
def ImageHelper.clearCmds (img : ImageHelper) (mipLevel baseArrayLayer layerCount : Nat) :
    List Command :=
  if img.formatIsDepthStencil then
    [Command.clearDepthStencilCmd mipLevel 1 baseArrayLayer layerCount]
  else
    [Command.clearColorCmd mipLevel 1 baseArrayLayer layerCount]

/-- Extraction of `(updateMipLevel, updateBaseLayer, updateLayerCount)` from an
update, vk_helpers.cpp:2540-2560: a Clear with the `kEntireLevel` sentinel
covers all `mLayerCount` layers of the image. -/
def ImageHelper.updateCoords (img : ImageHelper) (u : SubresourceUpdate) : Nat × Nat × Nat :=
  match u.updateSource with
  | .Clear =>
      (u.level, u.baseLayer,
        if u.layerCount = kEntireLevel then img.mLayerCount else u.layerCount)
  | _ => (u.level, u.baseLayer, u.layerCount)

/-- The skip test of vk_helpers.cpp:2562-2569: the update's level is outside
`[levelStart, levelEnd)` or its layer range does not intersect
`[layerStart, layerEnd)`. -/
def outsideWindow (levelStart levelEnd layerStart layerEnd : Nat)
    (coords : Nat × Nat × Nat) : Bool :=
  coords.1 < levelStart ∨ levelEnd ≤ coords.1 ∨
  coords.2.1 + coords.2.2 ≤ layerStart ∨ layerEnd ≤ coords.2.1

/-- The 64-bit hazard mask step of vk_helpers.cpp:2575-2596, as a function of
the image layer count `L`, the mask, and the update coordinates.  Returns
whether a fresh TransferDst barrier must be inserted, and the next mask
(`std::numeric_limits<uint64_t>::max()` when the layer count saturates the
mask; the computed rotated bit range ORed into the mask — onto a zeroed mask
when an overlap was detected — otherwise). -/
def subresourceHazardStep (L mask lvl base cnt : Nat) : Bool × Nat :=
  if kMaxParallelSubresourceUpload ≤ cnt then
    (true, 2 ^ 64 - 1)
  else
    let subresourceHashRange := 2 ^ cnt - 1
    let subresourceHashOffset := (lvl * L + base) % kMaxParallelSubresourceUpload
    let subresourceHash := rotl64 subresourceHashRange subresourceHashOffset
    if mask &&& subresourceHash ≠ 0 then (true, subresourceHash)
    else (false, mask ||| subresourceHash)

/-- Accumulator of the `flushStagedUpdates` walk: the image (whose layout the
in-loop `changeLayout` calls touch), `subresourceUploadsInProgress`,
`updatesToKeep`, and the commands recorded so far. -/
structure FlushState where
  img : ImageHelper
  mask : Nat
  keep : List SubresourceUpdate
  cmds : List Command
deriving Repr

/-- The update-application dispatch of vk_helpers.cpp:2598-2618: a Clear
issues a (color or depth/stencil) clear, a Buffer update a buffer-to-image
copy, and an Image update transitions its source image to TransferSrc
(abstracted as `srcImageTransitionCmd`, see `Command`) and issues an
image-to-image copy. -/
def applyCmdsFor (img : ImageHelper) (u : SubresourceUpdate) : List Command :=
  let c := img.updateCoords u
  match u.updateSource with
  | .Clear => img.clearCmds c.1 c.2.1 c.2.2
  | .Buffer => [Command.copyBufferToImageCmd c.1 c.2.1 c.2.2]
  | .Image => [Command.srcImageTransitionCmd, Command.copyImageCmd c.1 c.2.1 c.2.2]

/-- The body of the `flushStagedUpdates` loop, vk_helpers.cpp:2532-2621, for
one update.  (`applyCmdsFor` recomputes the update coordinates from the
stepped image; they agree with `c`, as the barrier leaves `mLayerCount`
untouched.) -/
def flushStep (levelStart levelEnd layerStart layerEnd : Nat)
    (st : FlushState) (u : SubresourceUpdate) : FlushState :=
  let c := st.img.updateCoords u
  if outsideWindow levelStart levelEnd layerStart layerEnd c then
    { st with keep := st.keep ++ [u] }
  else
    let hz := subresourceHazardStep st.img.mLayerCount st.mask c.1 c.2.1 c.2.2
    let stepB : ImageHelper × List Command :=
      if hz.1 then st.img.changeLayout st.img.aspectFlags ImageLayout.TransferDst
      else (st.img, [])
    { img := stepB.1
      mask := hz.2
      keep := st.keep
      cmds := st.cmds ++ stepB.2 ++ applyCmdsFor stepB.1 u }

/-- Model of `ImageHelper::flushStagedUpdates`, vk_helpers.cpp:2505-2632.  Returns the
post state and the recorded commands.  Device failures of the staging flush are
not modelled (the staging `DynamicBuffer.flush` is pure here). -/
def ImageHelper.flushStagedUpdates (img : ImageHelper)
    (levelStart levelEnd layerStart layerEnd : Nat) : ImageHelper × List Command :=
  if img.mSubresourceUpdates.isEmpty then (img, [])
  else
    let img1 := { img with mStagingBuffer := img.mStagingBuffer.flush }
    let start := img1.changeLayout img1.aspectFlags ImageLayout.TransferDst
    let final :=
      img1.mSubresourceUpdates.foldl (flushStep levelStart levelEnd layerStart layerEnd)
        { img := start.1, mask := 0, keep := [], cmds := start.2 }
    let img2 := { final.img with mSubresourceUpdates := final.keep }
    let img3 :=
      if final.keep.isEmpty then
        { img2 with mStagingBuffer := (img2.mStagingBuffer.releaseInFlightBuffers).1 }
      else img2
    (img3, final.cmds)

/-- The sequence of barrier-insertion decisions that `flushStep` makes for a
run of in-window update coordinates, starting from a given mask. -/
def hazardFlags (L mask : Nat) : List (Nat × Nat × Nat) → List Bool
  | [] => []
  | c :: rest =>
      let hz := subresourceHazardStep L mask c.1 c.2.1 c.2.2
      hz.1 :: hazardFlags L hz.2 rest

/-- Update coordinates `(lvl, base, cnt)` touch the subresource
`(level, layer)`. -/
def touches (c : Nat × Nat × Nat) (level layer : Nat) : Prop :=
  c.1 = level ∧ c.2.1 ≤ layer ∧ layer < c.2.1 + c.2.2

/-! Section: Recyclable pools (vk_helpers.cpp:607-851) -/

/-- Record `DynamicallyGrowingPool::PoolStats`, vk_helpers.h. -/
structure PoolStats where
  freedCount : Nat
  serial : Nat
deriving DecidableEq, Repr, Inhabited

/-- Bookkeeping of `DynamicallyGrowingPool` (vk_helpers.cpp:784-851).  The pool
payloads (`mPools`) carry no claim-relevant state; `mPoolStats` alone is
modelled, with one entry per pool instance. -/
structure DynamicallyGrowingPool where
  mPoolSize : Nat
  mPoolStats : List PoolStats
  mCurrentPool : Nat
  mCurrentFreeEntry : Nat
deriving DecidableEq, Repr

/-- Model of `DynamicallyGrowingPool::findFreeEntryPool`, vk_helpers.cpp:808-827:
scan for the first pool with `freedCount == mPoolSize` and a retired serial;
on success rebase the current pool there and zero its freed count. -/
def DynamicallyGrowingPool.findFreeEntryPool (ctx : ContextVk)
    (s : DynamicallyGrowingPool) : DynamicallyGrowingPool × Bool :=
  match s.mPoolStats.findIdx?
      (fun ps => ps.freedCount == s.mPoolSize &&
        decide (ps.serial ≤ ctx.lastCompletedQueueSerial)) with
  | some i =>
      ({ s with
          mCurrentPool := i
          mCurrentFreeEntry := 0
          mPoolStats :=
            s.mPoolStats.set i { (s.mPoolStats.getD i default) with freedCount := 0 } },
        true)
  | none => (s, false)

/-- Model of `DynamicallyGrowingPool::allocateNewEntryPool`, vk_helpers.cpp:829-841. -/
def DynamicallyGrowingPool.allocateNewEntryPool (s : DynamicallyGrowingPool) :
    DynamicallyGrowingPool :=
  { s with
      mPoolStats := s.mPoolStats ++ [{ freedCount := 0, serial := 0 }]
      mCurrentPool := s.mPoolStats.length
      mCurrentFreeEntry := 0 }

/-- Model of `DynamicallyGrowingPool::onEntryFreed`, vk_helpers.cpp:843-851: stamp the
current submission serial and bump the freed count.  The `ASSERT` that
`freedCount < mPoolSize` is a caller-contract precondition, stated as a
hypothesis of the theorems below. -/
def DynamicallyGrowingPool.onEntryFreed (ctx : ContextVk) (poolIndex : Nat)
    (s : DynamicallyGrowingPool) : DynamicallyGrowingPool :=
  let ps := s.mPoolStats.getD poolIndex default
  { s with
      mPoolStats :=
        s.mPoolStats.set poolIndex
          { freedCount := ps.freedCount + 1, serial := ctx.currentQueueSerial } }

/-- The allocation pattern shared by `DynamicQueryPool::allocateQuery`
(vk_helpers.cpp:904-918) and `DynamicSemaphorePool::allocateSemaphore`: draw
the next sequential slot; on exhaustion first try `findFreeEntryPool`, else
append a fresh pool.  Returns the post state and the issued
`(poolIndex, slotIndex)`. -/
def DynamicallyGrowingPool.allocateEntry (ctx : ContextVk)
    (s : DynamicallyGrowingPool) : DynamicallyGrowingPool × (Nat × Nat) :=
  let s1 :=
    if s.mPoolSize ≤ s.mCurrentFreeEntry then
      let found := s.findFreeEntryPool ctx
      if found.2 then found.1 else found.1.allocateNewEntryPool
    else s
  ({ s1 with mCurrentFreeEntry := s1.mCurrentFreeEntry + 1 },
    (s1.mCurrentPool, s1.mCurrentFreeEntry))

/-- State of `DescriptorPoolHelper` (vk_helpers.cpp:607-667): `poolValid` models
`mDescriptorPool.valid()`, `serial` the helper's last-use serial. -/
structure DescriptorPoolHelper where
  poolValid : Bool
  mFreeDescriptorSets : Nat
  serial : Nat
deriving DecidableEq, Repr, Inhabited

/-- A `RefCountedDescriptorPoolHelper`: the helper plus whether any binding
site currently references it. -/
structure RefCountedDescriptorPoolHelper where
  helper : DescriptorPoolHelper
  referenced : Bool
deriving DecidableEq, Repr, Inhabited

/-- State of `DynamicDescriptorPool` (vk_helpers.cpp:669-782).
`nativePoolsConstructed` instruments how many native `VkDescriptorPool`
objects have been constructed (each successful `DescriptorPoolHelper::init`
constructs one, vk_helpers.cpp:636). -/
structure DynamicDescriptorPool where
  mMaxSetsPerPool : Nat
  mCurrentPoolIndex : Nat
  mDescriptorPools : List RefCountedDescriptorPoolHelper
  nativePoolsConstructed : Nat
deriving DecidableEq, Repr

/-- Model of `DescriptorPoolHelper::init`, vk_helpers.cpp:617-638: destroy the old
native pool if any, then construct a fresh native pool with `maxSets` free
sets.  ("This could be improved by recycling the descriptor pool.") -/
def DescriptorPoolHelper.init (maxSets : Nat) (_h : DescriptorPoolHelper) :
    DescriptorPoolHelper :=
  { poolValid := true, mFreeDescriptorSets := maxSets, serial := 0 }

/-- Model of `DynamicDescriptorPool::allocateNewPool`, vk_helpers.cpp:752-777: scan for
an unreferenced pool instance with a retired serial and rebase the current
index there; otherwise append a fresh instance; then (re)`init` the current
instance, which constructs a new native pool object either way. -/
def DynamicDescriptorPool.allocateNewPool (ctx : ContextVk)
    (s : DynamicDescriptorPool) : DynamicDescriptorPool :=
  let found := s.mDescriptorPools.findIdx?
    (fun p => !p.referenced && !(ctx.isSerialInUse p.helper.serial))
  let s1 :=
    match found with
    | some i => { s with mCurrentPoolIndex := i }
    | none =>
        { s with
            mDescriptorPools :=
              s.mDescriptorPools ++
                [({ helper := { poolValid := false, mFreeDescriptorSets := 0, serial := 0 }
                    referenced := false } : RefCountedDescriptorPoolHelper)]
            mCurrentPoolIndex := s.mDescriptorPools.length }
  let cur := s1.mDescriptorPools.getD s1.mCurrentPoolIndex default
  { s1 with
      mDescriptorPools :=
        s1.mDescriptorPools.set s1.mCurrentPoolIndex
          { cur with helper := cur.helper.init s1.mMaxSetsPerPool }
      nativePoolsConstructed := s1.nativePoolsConstructed + 1 }

/-! Section: Helper lemmas: layout transitions -/

/-- Classifies the commands that are synchronization barriers. -/
def Command.isBarrierCmd : Command → Bool
  | .executionBarrier _ => true
  | .imageBarrier _ _ _ => true
  | _ => false

/-- Classifies execution-only barriers (a stage wait with no access flags). -/
def Command.isExecutionOnlyBarrier : Command → Bool
  | .executionBarrier _ => true
  | _ => false

theorem changeLayout_same_noBarrier (img : ImageHelper) (a : Nat) (l : ImageLayout)
    (hcur : img.mCurrentLayout = l)
    (hreq : (kImageMemoryBarrierData l).sameLayoutTransitionRequiresBarrier = false) :
    img.changeLayout a l = (img, []) := by
  subst hcur
  simp [ImageHelper.changeLayout, ImageHelper.isLayoutChangeNecessary, hreq]

theorem changeLayout_same_execBarrier (img : ImageHelper) (a : Nat) (l : ImageLayout)
    (hcur : img.mCurrentLayout = l)
    (hreq : (kImageMemoryBarrierData l).sameLayoutTransitionRequiresBarrier = true)
    (hne : l ≠ ImageLayout.TransferDst) :
    img.changeLayout a l =
      (img, [Command.executionBarrier (kImageMemoryBarrierData l).dstStageMask]) := by
  subst hcur
  simp [ImageHelper.changeLayout, ImageHelper.isLayoutChangeNecessary, hreq,
    ImageHelper.forceChangeLayoutAndQueue, hne]

theorem changeLayout_same_TransferDst (img : ImageHelper) (a : Nat)
    (hcur : img.mCurrentLayout = ImageLayout.TransferDst) :
    img.changeLayout a ImageLayout.TransferDst =
      (img,
        [Command.imageBarrier VK_PIPELINE_STAGE_TRANSFER_BIT VK_PIPELINE_STAGE_TRANSFER_BIT
          { srcAccessMask := VK_ACCESS_TRANSFER_WRITE_BIT
            dstAccessMask := VK_ACCESS_TRANSFER_WRITE_BIT
            oldLayout := VK_IMAGE_LAYOUT_TRANSFER_DST_OPTIMAL
            newLayout := VK_IMAGE_LAYOUT_TRANSFER_DST_OPTIMAL
            srcQueueFamilyIndex := img.mCurrentQueueFamilyIndex
            dstQueueFamilyIndex := img.mCurrentQueueFamilyIndex
            aspectMask := a
            baseMipLevel := 0
            levelCount := img.mLevelCount
            baseArrayLayer := 0
            layerCount := img.mLayerCount }]) := by
  simp [ImageHelper.changeLayout, ImageHelper.isLayoutChangeNecessary, hcur,
    ImageHelper.forceChangeLayoutAndQueue, kImageMemoryBarrierData]
  rw [← hcur]

/-- An inert staging buffer used by the concrete image states below. -/
def dbEmpty : DynamicBuffer :=
  { mHostVisible := false, mInitialSize := 0, mBuffer := none, mNextAllocationOffset := 0
    mLastFlushOrInvalidateOffset := 0, mSize := 0, mAlignment := 1
    mInFlightBuffers := [], mBufferFreeList := [], nextBufferId := 0 }

/-- A 1-level, 1-layer color image currently in TransferDst layout. -/
def c1imgTD : ImageHelper :=
  { mCurrentLayout := .TransferDst, mCurrentQueueFamilyIndex := 0, mLevelCount := 1
    mLayerCount := 1, formatIsDepthStencil := false, aspectFlags := 1
    mSubresourceUpdates := [], mStagingBuffer := dbEmpty }

/-- A 1-level, 1-layer color image currently in ColorAttachment layout. -/
def c1imgCA : ImageHelper :=
  { c1imgTD with mCurrentLayout := .ColorAttachment }

/-- Claim C1 (amended). A `changeLayout` call with target equal to the current
layout and an unchanged queue-family owner is: a no-op for layouts whose
metadata does not require a same-layout barrier; a full memory barrier built
from TransferDst's own stage/access masks for TransferDst (the AMD-workaround
exclusion, vk_helpers.cpp:1823-1824) rather than the execution-only barrier the
claim states; and an execution-only barrier from the state's own stage mask for
the remaining barrier-requiring layouts (ComputeShaderWrite,
AllGraphicsShadersWrite, ColorAttachment, DepthStencilAttachment).  For every
barrier-requiring layout, source and destination stage masks coincide. -/
theorem c1_same_layout_transition (img : ImageHelper) (a : Nat) (l : ImageLayout)
    (hcur : img.mCurrentLayout = l) :
    img.changeLayout a l =
      (if (kImageMemoryBarrierData l).sameLayoutTransitionRequiresBarrier = false then
        (img, [])
      else if l = ImageLayout.TransferDst then
        (img,
          [Command.imageBarrier (kImageMemoryBarrierData l).srcStageMask
            (kImageMemoryBarrierData l).dstStageMask
            { srcAccessMask := (kImageMemoryBarrierData l).srcAccessMask
              dstAccessMask := (kImageMemoryBarrierData l).dstAccessMask
              oldLayout := (kImageMemoryBarrierData l).layout
              newLayout := (kImageMemoryBarrierData l).layout
              srcQueueFamilyIndex := img.mCurrentQueueFamilyIndex
              dstQueueFamilyIndex := img.mCurrentQueueFamilyIndex
              aspectMask := a
              baseMipLevel := 0
              levelCount := img.mLevelCount
              baseArrayLayer := 0
              layerCount := img.mLayerCount }])
      else
        (img, [Command.executionBarrier (kImageMemoryBarrierData l).dstStageMask])) ∧
    ((kImageMemoryBarrierData l).sameLayoutTransitionRequiresBarrier = true →
      (kImageMemoryBarrierData l).srcStageMask = (kImageMemoryBarrierData l).dstStageMask) := by
  constructor
  · split_ifs with h1 h2
    · exact changeLayout_same_noBarrier img a l hcur h1
    · subst h2
      rw [changeLayout_same_TransferDst img a hcur]
      rfl
    · exact changeLayout_same_execBarrier img a l hcur (by simpa using h1) h2
  · cases l <;> decide

/-- Claim C1 counterexample. With the image already in TransferDst and the target
TransferDst, exactly one command is recorded, and it is a full memory barrier
(access masks `VK_ACCESS_TRANSFER_WRITE_BIT`), not the execution-only barrier
the claim asserts for TransferDst. -/
theorem c1_counterexample :
    (c1imgTD.changeLayout 1 ImageLayout.TransferDst).2.map Command.isExecutionOnlyBarrier =
      [false] ∧
    (c1imgTD.changeLayout 1 ImageLayout.TransferDst).2 =
      [Command.imageBarrier 4096 4096
        { srcAccessMask := 4096, dstAccessMask := 4096, oldLayout := 7, newLayout := 7
          srcQueueFamilyIndex := 0, dstQueueFamilyIndex := 0, aspectMask := 1
          baseMipLevel := 0, levelCount := 1, baseArrayLayer := 0, layerCount := 1 }] :=
  ⟨rfl, rfl⟩

/-- Witness for `c1_same_layout_transition` at a concrete ColorAttachment
image. -/
theorem c1_witness :
    c1imgCA.mCurrentLayout = ImageLayout.ColorAttachment ∧
    (c1imgCA.changeLayout 1 ImageLayout.ColorAttachment =
      (if (kImageMemoryBarrierData ImageLayout.ColorAttachment).sameLayoutTransitionRequiresBarrier = false then
        (c1imgCA, [])
      else if ImageLayout.ColorAttachment = ImageLayout.TransferDst then
        (c1imgCA,
          [Command.imageBarrier (kImageMemoryBarrierData ImageLayout.ColorAttachment).srcStageMask
            (kImageMemoryBarrierData ImageLayout.ColorAttachment).dstStageMask
            { srcAccessMask := (kImageMemoryBarrierData ImageLayout.ColorAttachment).srcAccessMask
              dstAccessMask := (kImageMemoryBarrierData ImageLayout.ColorAttachment).dstAccessMask
              oldLayout := (kImageMemoryBarrierData ImageLayout.ColorAttachment).layout
              newLayout := (kImageMemoryBarrierData ImageLayout.ColorAttachment).layout
              srcQueueFamilyIndex := c1imgCA.mCurrentQueueFamilyIndex
              dstQueueFamilyIndex := c1imgCA.mCurrentQueueFamilyIndex
              aspectMask := 1
              baseMipLevel := 0
              levelCount := c1imgCA.mLevelCount
              baseArrayLayer := 0
              layerCount := c1imgCA.mLayerCount }])
      else
        (c1imgCA,
          [Command.executionBarrier
            (kImageMemoryBarrierData ImageLayout.ColorAttachment).dstStageMask])) ∧
    ((kImageMemoryBarrierData ImageLayout.ColorAttachment).sameLayoutTransitionRequiresBarrier = true →
      (kImageMemoryBarrierData ImageLayout.ColorAttachment).srcStageMask =
        (kImageMemoryBarrierData ImageLayout.ColorAttachment).dstStageMask)) :=
  ⟨rfl, c1_same_layout_transition c1imgCA 1 ImageLayout.ColorAttachment rfl⟩

/-! Section: Helper lemmas: DynamicBuffer allocation -/

theorem roundUp_dvd (x m : Nat) : m ∣ roundUp x m :=
  ⟨(x + m - 1) / m, (Nat.mul_comm _ _)⟩

theorem le_roundUp (x m : Nat) (hm : 0 < m) : x ≤ roundUp x m := by
  unfold roundUp
  have h := Nat.lt_div_mul_add (a := x + m - 1) hm
  set t := (x + m - 1) / m * m with ht
  omega

/-- Inside the current generation (the aligned request fits strictly below the
capacity), `allocate` returns the watermark and advances it, touching nothing
else. -/
theorem allocate_stay_in_generation (ctx : ContextVk) (s : DynamicBuffer) (sz : Nat)
    (h : s.mNextAllocationOffset + roundUp sz s.mAlignment < s.mSize) :
    s.allocate ctx sz =
      ({ s with mNextAllocationOffset :=
          (s.mNextAllocationOffset + roundUp sz s.mAlignment) % 2 ^ 32 },
        some (s.mNextAllocationOffset, false)) := by
  unfold DynamicBuffer.allocate
  have hc : ¬ s.mSize ≤ s.mNextAllocationOffset + roundUp sz s.mAlignment := by omega
  simp [hc]

/-- On the rollover path, `allocate` either fails or reports a new generation
at offset zero; it never reports `newBufferAllocated = false`. -/
theorem allocate_rollover_not_false (ctx : ContextVk) (s : DynamicBuffer) (sz : Nat)
    (hc : s.mSize ≤ s.mNextAllocationOffset + roundUp sz s.mAlignment) :
    (s.allocate ctx sz).2 = none ∨ (s.allocate ctx sz).2 = some (0, true) := by
  simp only [DynamicBuffer.allocate]
  rw [if_pos hc]
  split
  · exact Or.inl rfl
  · exact Or.inr rfl

/-- Core induction for C2: a run of `allocate` calls that never leaves the
current generation hands out exactly adjacent aligned ranges starting at the
current watermark. -/
theorem allocRun_in_generation (ctx : ContextVk) :
    ∀ (sizes : List Nat) (s : DynamicBuffer),
      0 < s.mAlignment → s.mAlignment ∣ s.mNextAllocationOffset → s.mSize ≤ 2 ^ 32 →
      (∀ sz ∈ sizes, 0 < sz) →
      (∀ r ∈ (s.allocRun ctx sizes).2, r.2.2 = false) →
      (∀ r ∈ (s.allocRun ctx sizes).2,
        s.mAlignment ∣ r.1 ∧ s.mNextAllocationOffset ≤ r.1 ∧ 0 < r.2.1) ∧
      ((s.allocRun ctx sizes).2).Chain' (fun a b => a.1 + a.2.1 ≤ b.1) := by
  intro sizes
  induction sizes with
  | nil =>
      intro s _ _ _ _ _
      simp [DynamicBuffer.allocRun]
  | cons sz rest ih =>
      intro s ha hd hsize hpos hflags
      by_cases hc : s.mSize ≤ s.mNextAllocationOffset + roundUp sz s.mAlignment
      · rcases allocate_rollover_not_false ctx s sz hc with hr | hr
        · -- device failure: the run records nothing
          rcases hres : s.allocate ctx sz with ⟨s', r⟩
          rw [hres] at hr; simp at hr
          subst hr
          simp [DynamicBuffer.allocRun, hres]
        · -- new generation: contradicts the all-in-one-generation hypothesis
          rcases hres : s.allocate ctx sz with ⟨s', r⟩
          rw [hres] at hr; simp at hr
          subst hr
          exfalso
          have := hflags (0, roundUp sz s.mAlignment, true)
          simp [DynamicBuffer.allocRun, hres] at this
      · push_neg at hc
        have heq := allocate_stay_in_generation ctx s sz hc
        have hmod : (s.mNextAllocationOffset + roundUp sz s.mAlignment) % 2 ^ 32 =
            s.mNextAllocationOffset + roundUp sz s.mAlignment :=
          Nat.mod_eq_of_lt (by omega)
        set s' : DynamicBuffer :=
          { s with mNextAllocationOffset :=
              (s.mNextAllocationOffset + roundUp sz s.mAlignment) % 2 ^ 32 } with hs'
        have hrun : (s.allocRun ctx (sz :: rest)).2 =
            (s.mNextAllocationOffset, roundUp sz s.mAlignment, false) ::
              (s'.allocRun ctx rest).2 := by
          simp [DynamicBuffer.allocRun, heq]
        have hrest := ih s' (by simpa [hs'] using ha) (by
            show s.mAlignment ∣ (s.mNextAllocationOffset + roundUp sz s.mAlignment) % 2 ^ 32
            rw [hmod]
            exact Nat.dvd_add hd (roundUp_dvd sz s.mAlignment))
          (by simpa [hs'] using hsize) (fun z hz => hpos z (List.mem_cons_of_mem _ hz))
          (by
            intro r hrmem
            apply hflags
            rw [hrun]
            exact List.mem_cons_of_mem _ hrmem)
        have hszpos : 0 < roundUp sz s.mAlignment :=
          lt_of_lt_of_le (hpos sz (List.mem_cons_self _ _)) (le_roundUp sz s.mAlignment ha)
        constructor
        · intro r hrmem
          rw [hrun] at hrmem
          rcases List.mem_cons.mp hrmem with hhead | htail
          · subst hhead
            exact ⟨hd, Nat.le_refl _, hszpos⟩
          · have h1 := (hrest.1 r htail).1
            have h2 := (hrest.1 r htail).2.1
            have h3 := (hrest.1 r htail).2.2
            refine ⟨by simpa [hs'] using h1, ?_, h3⟩
            have hnext : s'.mNextAllocationOffset =
                s.mNextAllocationOffset + roundUp sz s.mAlignment := hmod
            omega
        · rw [hrun]
          rw [List.chain'_cons']
          refine ⟨?_, hrest.2⟩
          intro y hy
          have hymem : y ∈ (s'.allocRun ctx rest).2 := List.mem_of_mem_head? hy
          have h2 := (hrest.1 y hymem).2.1
          have hnext : s'.mNextAllocationOffset =
              s.mNextAllocationOffset + roundUp sz s.mAlignment := hmod
          show s.mNextAllocationOffset + roundUp sz s.mAlignment ≤ y.1
          omega

/-- Concrete allocator used by the C2 and C9 examples: alignment 4, a current
1024-byte generation, watermark 0. -/
def c2db : DynamicBuffer :=
  { mHostVisible := false, mInitialSize := 1024
    mBuffer := some { id := 0, size := 1024, queueSerial := 0 }
    mNextAllocationOffset := 0, mLastFlushOrInvalidateOffset := 0
    mSize := 1024, mAlignment := 4, mInFlightBuffers := [], mBufferFreeList := []
    nextBufferId := 1 }

def c2ctx : ContextVk :=
  { currentQueueSerial := 5, lastCompletedQueueSerial := 1, bufferCreationSucceeds := true }

/-- Claim C2 (amended). For a sequence of `allocate(size)` calls with *positive*
sizes that are all served within one buffer generation (no call reports a new
generation), and whose generation capacity fits the 32-bit offset counter, the
returned offsets are strictly increasing, the byte ranges
`[offset, offset + roundedSize)` never overlap, and every returned offset is a
multiple of the configured alignment.  (Zero-size allocations consume no bytes
and repeat the previous watermark, so the original claim's strict increase
fails for them, see the counterexample.) -/
theorem c2_offsets_within_generation (ctx : ContextVk) (s : DynamicBuffer)
    (sizes : List Nat)
    (halign : 0 < s.mAlignment) (hoff : s.mAlignment ∣ s.mNextAllocationOffset)
    (hcap : s.mSize ≤ 2 ^ 32) (hpos : ∀ sz ∈ sizes, 0 < sz)
    (hgen : ∀ r ∈ (s.allocRun ctx sizes).2, r.2.2 = false) :
    (((s.allocRun ctx sizes).2.map fun r => r.1).Pairwise (· < ·)) ∧
    (((s.allocRun ctx sizes).2).Pairwise fun a b => a.1 + a.2.1 ≤ b.1) ∧
    (∀ r ∈ (s.allocRun ctx sizes).2, s.mAlignment ∣ r.1) := by
  have hmain := allocRun_in_generation ctx sizes s halign hoff hcap hpos hgen
  haveI : IsTrans (Nat × Nat × Bool) (fun a b => a.1 + a.2.1 ≤ b.1) :=
    ⟨fun a b c hab hbc => by omega⟩
  have hpw : ((s.allocRun ctx sizes).2).Pairwise fun a b => a.1 + a.2.1 ≤ b.1 :=
    List.chain'_iff_pairwise.mp hmain.2
  refine ⟨?_, hpw, fun r hr => (hmain.1 r hr).1⟩
  rw [List.pairwise_map]
  refine hpw.imp_of_mem ?_
  intro a b ha _ hab
  have := (hmain.1 a ha).2.2
  omega

/-- Claim C2 counterexample. Two zero-size allocations in the same generation
(both report `newBufferAllocated = false`) return the same offset 0 twice, so
the offsets of a within-one-generation sequence are not strictly increasing as
the claim states. -/
theorem c2_counterexample :
    (c2db.allocRun c2ctx [0, 0]).2 = [(0, 0, false), (0, 0, false)] ∧ ¬ (0 : Nat) < 0 :=
  ⟨rfl, by omega⟩

/-- Witness for `c2_offsets_within_generation`: sizes 100 and 8 inside the
1024-byte generation give offsets 0 and 100. -/
theorem c2_witness :
    (0 < c2db.mAlignment ∧ c2db.mAlignment ∣ c2db.mNextAllocationOffset ∧
      c2db.mSize ≤ 2 ^ 32 ∧ (∀ sz ∈ [100, 8], 0 < sz) ∧
      (∀ r ∈ (c2db.allocRun c2ctx [100, 8]).2, r.2.2 = false)) ∧
    ((((c2db.allocRun c2ctx [100, 8]).2.map fun r => r.1).Pairwise (· < ·)) ∧
      (((c2db.allocRun c2ctx [100, 8]).2).Pairwise fun a b => a.1 + a.2.1 ≤ b.1) ∧
      (∀ r ∈ (c2db.allocRun c2ctx [100, 8]).2, c2db.mAlignment ∣ r.1)) :=
  ⟨⟨by decide, by decide, by decide, by decide, by decide⟩,
    c2_offsets_within_generation c2ctx c2db [100, 8] (by decide) (by decide) (by decide)
      (by decide) (by decide)⟩

/-- Folds a sequence of `allocate` calls over the allocator state (the result
values are discarded; a failed call leaves its partial state, as in the C++). -/
def DynamicBuffer.allocSeq (s : DynamicBuffer) : List (ContextVk × Nat) → DynamicBuffer
  | [] => s
  | op :: rest => ((s.allocate op.1 op.2).1).allocSeq rest

theorem holdsId_allocateNewBuffer (ctx : ContextVk) (s : DynamicBuffer) (i : Nat)
    (hni : ¬ s.holdsId i) (hlt : i < s.nextBufferId) :
    ¬ (s.allocateNewBuffer ctx).1.holdsId i ∧ i < (s.allocateNewBuffer ctx).1.nextBufferId := by
  unfold DynamicBuffer.allocateNewBuffer
  by_cases h : ctx.bufferCreationSucceeds
  · simp only [if_pos h]
    constructor
    · intro hcontra
      rcases hcontra with ⟨b, hb, hbid⟩ | h2 | h3
      · simp only [Option.some.injEq] at hb
        subst hb
        simp at hbid
        omega
      · exact hni (Or.inr (Or.inl h2))
      · exact hni (Or.inr (Or.inr h3))
    · simpa using Nat.lt_succ_of_lt hlt
  · simp only [if_neg h]
    exact ⟨hni, hlt⟩

theorem flush_mBuffer (s : DynamicBuffer) : s.flush.mBuffer = s.mBuffer := by
  unfold DynamicBuffer.flush; split <;> rfl

theorem flush_mInFlightBuffers (s : DynamicBuffer) :
    s.flush.mInFlightBuffers = s.mInFlightBuffers := by
  unfold DynamicBuffer.flush; split <;> rfl

theorem flush_mBufferFreeList (s : DynamicBuffer) :
    s.flush.mBufferFreeList = s.mBufferFreeList := by
  unfold DynamicBuffer.flush; split <;> rfl

theorem flush_nextBufferId (s : DynamicBuffer) : s.flush.nextBufferId = s.nextBufferId := by
  unfold DynamicBuffer.flush; split <;> rfl

theorem flush_mSize (s : DynamicBuffer) : s.flush.mSize = s.mSize := by
  unfold DynamicBuffer.flush; split <;> rfl

theorem flush_mInitialSize (s : DynamicBuffer) : s.flush.mInitialSize = s.mInitialSize := by
  unfold DynamicBuffer.flush; split <;> rfl

theorem flush_mAlignment (s : DynamicBuffer) : s.flush.mAlignment = s.mAlignment := by
  unfold DynamicBuffer.flush; split <;> rfl

theorem retireCurrentBuffer_none (ctx : ContextVk) (s : DynamicBuffer)
    (h : s.mBuffer = none) : s.retireCurrentBuffer ctx = s := by
  unfold DynamicBuffer.retireCurrentBuffer; rw [h]

theorem retireCurrentBuffer_some (ctx : ContextVk) (s : DynamicBuffer) (b : BufferHelper)
    (h : s.mBuffer = some b) :
    s.retireCurrentBuffer ctx =
      { s.flush with
          mBuffer := none
          mInFlightBuffers :=
            s.flush.mInFlightBuffers ++ [{ b with queueSerial := ctx.currentQueueSerial }] } := by
  unfold DynamicBuffer.retireCurrentBuffer; rw [h]

theorem holdsId_retireCurrentBuffer (ctx : ContextVk) (s : DynamicBuffer) (i : Nat)
    (hni : ¬ s.holdsId i) :
    ¬ (s.retireCurrentBuffer ctx).holdsId i ∧
    (s.retireCurrentBuffer ctx).nextBufferId = s.nextBufferId ∧
    (s.retireCurrentBuffer ctx).mBufferFreeList = s.mBufferFreeList := by
  cases hbuf : s.mBuffer with
  | none => rw [retireCurrentBuffer_none ctx s hbuf]; exact ⟨hni, rfl, rfl⟩
  | some b =>
      rw [retireCurrentBuffer_some ctx s b hbuf]
      refine ⟨?_, flush_nextBufferId s, flush_mBufferFreeList s⟩
      intro hcontra
      rcases hcontra with ⟨b', hb', _⟩ | h2 | h3
      · simp at hb'
      · simp only [flush_mInFlightBuffers] at h2
        rcases h2 with ⟨b', hb'mem, hb'id⟩
        rcases List.mem_append.mp hb'mem with hin | hnew
        · exact hni (Or.inr (Or.inl ⟨b', hin, hb'id⟩))
        · simp only [List.mem_singleton] at hnew
          subst hnew
          exact hni (Or.inl ⟨b, hbuf, hb'id⟩)
      · simp only [flush_mBufferFreeList] at h3
        exact hni (Or.inr (Or.inr h3))

theorem holdsId_growTargetSize (n : Nat) (s : DynamicBuffer) (i : Nat)
    (hni : ¬ s.holdsId i) :
    ¬ (s.growTargetSize n).holdsId i ∧
    (s.growTargetSize n).nextBufferId = s.nextBufferId := by
  unfold DynamicBuffer.growTargetSize
  split
  · refine ⟨?_, rfl⟩
    intro hcontra
    rcases hcontra with ⟨b', hb', hid⟩ | h2 | h3
    · exact hni (Or.inl ⟨b', hb', hid⟩)
    · exact hni (Or.inr (Or.inl h2))
    · simp at h3
  · exact ⟨hni, rfl⟩

theorem holdsId_selectNewBuffer (ctx : ContextVk) (s : DynamicBuffer) (i : Nat)
    (hni : ¬ s.holdsId i) (hlt : i < s.nextBufferId) :
    ¬ (s.selectNewBuffer ctx).1.holdsId i ∧ i < (s.selectNewBuffer ctx).1.nextBufferId := by
  unfold DynamicBuffer.selectNewBuffer
  rcases hfl : s.mBufferFreeList with _ | ⟨front, rest⟩
  · exact holdsId_allocateNewBuffer ctx s i hni hlt
  · cases hiu : front.isResourceInUse ctx with
    | true =>
        simp only [hiu, if_true]
        exact holdsId_allocateNewBuffer ctx s i hni hlt
    | false =>
        simp only [hiu, Bool.false_eq_true, if_false]
        refine ⟨?_, hlt⟩
        intro hcontra
        rcases hcontra with ⟨b', hb', hid⟩ | h2 | h3
        · simp only [Option.some.injEq] at hb'
          exact hni (Or.inr (Or.inr ⟨b',
            by rw [hfl, ← hb']; exact List.mem_cons_self _ _, hid⟩))
        · exact hni (Or.inr (Or.inl h2))
        · rcases h3 with ⟨b', hb'mem, hid⟩
          exact hni (Or.inr (Or.inr ⟨b', by rw [hfl]; exact List.mem_cons_of_mem _ hb'mem, hid⟩))

/-- Lemma: `allocate` never resurrects a buffer identity the allocator no longer
holds: non-possession of an id below the fresh-id watermark is preserved. -/
theorem holdsId_allocate (ctx : ContextVk) (sz : Nat) (s : DynamicBuffer) (i : Nat)
    (hni : ¬ s.holdsId i) (hlt : i < s.nextBufferId) :
    ¬ (s.allocate ctx sz).1.holdsId i ∧ i < (s.allocate ctx sz).1.nextBufferId := by
  unfold DynamicBuffer.allocate
  by_cases hc : s.mSize ≤ s.mNextAllocationOffset + roundUp sz s.mAlignment
  · rw [if_pos hc]
    obtain ⟨h1, h2, _⟩ := holdsId_retireCurrentBuffer ctx s i hni
    obtain ⟨h3, h4⟩ :=
      holdsId_growTargetSize (roundUp sz s.mAlignment) (s.retireCurrentBuffer ctx) i h1
    obtain ⟨h5, h6⟩ := holdsId_selectNewBuffer ctx
      ((s.retireCurrentBuffer ctx).growTargetSize (roundUp sz s.mAlignment)) i h3
      (by omega)
    rcases hsel : ((s.retireCurrentBuffer ctx).growTargetSize
        (roundUp sz s.mAlignment)).selectNewBuffer ctx with ⟨s3, flag⟩
    rw [hsel] at h5 h6
    cases flag
    · exact ⟨h5, h6⟩
    · constructor
      · intro hcontra
        rcases hcontra with ⟨b', hb', hid⟩ | hl2 | hl3
        · exact h5 (Or.inl ⟨b', hb', hid⟩)
        · exact h5 (Or.inr (Or.inl hl2))
        · exact h5 (Or.inr (Or.inr hl3))
      · exact h6
  · rw [if_neg hc]
    exact ⟨fun hcontra => hni hcontra, hlt⟩

/-- Non-possession of a buffer identity is preserved by arbitrary later
allocation sequences. -/
theorem holdsId_allocSeq (ops : List (ContextVk × Nat)) (s : DynamicBuffer) (i : Nat)
    (hni : ¬ s.holdsId i) (hlt : i < s.nextBufferId) :
    ¬ (s.allocSeq ops).holdsId i := by
  induction ops generalizing s with
  | nil => exact hni
  | cons op rest ih =>
      obtain ⟨h1, h2⟩ := holdsId_allocate op.1 op.2 s i hni hlt
      exact ih _ h1 h2

/-- Claim C5. For every in-flight generation whose stamped serial is retired
(and whose identity, as maintained by the allocator, is held by no other
compartment), `releaseInFlightBuffers` moves it to the free list if and only
if its capacity is at least the allocator's current target capacity;
otherwise it is permanently released: it is in the released output, leaves
every compartment of the allocator, and no later `allocate` sequence ever
returns it as the current buffer. -/
theorem c5_releaseInFlightBuffers (ctx : ContextVk) (s : DynamicBuffer) (b : BufferHelper)
    (hmem : b ∈ s.mInFlightBuffers)
    (hretired : b.queueSerial ≤ ctx.lastCompletedQueueSerial)
    (hfreeIds : ∀ b' ∈ s.mBufferFreeList, b'.id ≠ b.id)
    (hcurId : ∀ b', s.mBuffer = some b' → b'.id ≠ b.id)
    (huniq : ∀ b' ∈ s.mInFlightBuffers, b'.id = b.id → b' = b)
    (hfresh : b.id < s.nextBufferId) :
    (b ∈ (s.releaseInFlightBuffers).1.mBufferFreeList ↔ s.mSize ≤ b.size) ∧
    (b.size < s.mSize →
      b ∈ (s.releaseInFlightBuffers).2 ∧
      ¬ (s.releaseInFlightBuffers).1.holdsId b.id ∧
      ∀ (ops : List (ContextVk × Nat)) (c : BufferHelper),
        ((s.releaseInFlightBuffers).1.allocSeq ops).mBuffer = some c → c.id ≠ b.id) := by
  constructor
  · constructor
    · intro h
      rcases List.mem_append.mp h with hfree | hkept
      · exact absurd rfl (hfreeIds b hfree)
      · have := (List.mem_filter.mp hkept).2
        simp at this
        exact this
    · intro h
      refine List.mem_append.mpr (Or.inr (List.mem_filter.mpr ⟨hmem, ?_⟩))
      simp
      exact h
  · intro hsize
    have hnh : ¬ (s.releaseInFlightBuffers).1.holdsId b.id := by
      intro hcontra
      rcases hcontra with ⟨b', hb', hid⟩ | h2 | h3
      · exact hcurId b' hb' hid
      · rcases h2 with ⟨b', hb'mem, _⟩
        simp [DynamicBuffer.releaseInFlightBuffers] at hb'mem
      · rcases h3 with ⟨b', hb'mem, hid⟩
        rcases List.mem_append.mp hb'mem with hfree | hkept
        · exact hfreeIds b' hfree hid
        · obtain ⟨hb'in, hpred⟩ := List.mem_filter.mp hkept
          have hb'b := huniq b' hb'in hid
          subst hb'b
          simp at hpred
          omega
    refine ⟨List.mem_filter.mpr ⟨hmem, by simp; exact hsize⟩, hnh, ?_⟩
    intro ops c hbuf hcid
    have hfresh' : b.id < (s.releaseInFlightBuffers).1.nextBufferId := hfresh
    exact holdsId_allocSeq ops _ b.id hnh hfresh'
      (Or.inl ⟨c, hbuf, hcid⟩)

/-- Allocator state for the C5 witness: one undersized retired in-flight
generation (id 1), a separate free generation (id 2) and current buffer
(id 3). -/
def c5db : DynamicBuffer :=
  { mHostVisible := false, mInitialSize := 1024
    mBuffer := some { id := 3, size := 1024, queueSerial := 0 }
    mNextAllocationOffset := 0, mLastFlushOrInvalidateOffset := 0
    mSize := 1024, mAlignment := 4
    mInFlightBuffers := [{ id := 1, size := 512, queueSerial := 1 }]
    mBufferFreeList := [{ id := 2, size := 1024, queueSerial := 0 }]
    nextBufferId := 4 }

def c5buf : BufferHelper := { id := 1, size := 512, queueSerial := 1 }

/-- Witness for `c5_releaseInFlightBuffers` at a concrete undersized retired
generation. -/
theorem c5_witness :
    (c5buf ∈ c5db.mInFlightBuffers ∧
      c5buf.queueSerial ≤ c2ctx.lastCompletedQueueSerial ∧
      (∀ b' ∈ c5db.mBufferFreeList, b'.id ≠ c5buf.id) ∧
      (∀ b', c5db.mBuffer = some b' → b'.id ≠ c5buf.id) ∧
      (∀ b' ∈ c5db.mInFlightBuffers, b'.id = c5buf.id → b' = c5buf) ∧
      c5buf.id < c5db.nextBufferId) ∧
    ((c5buf ∈ (c5db.releaseInFlightBuffers).1.mBufferFreeList ↔ c5db.mSize ≤ c5buf.size) ∧
      (c5buf.size < c5db.mSize →
        c5buf ∈ (c5db.releaseInFlightBuffers).2 ∧
        ¬ (c5db.releaseInFlightBuffers).1.holdsId c5buf.id ∧
        ∀ (ops : List (ContextVk × Nat)) (c : BufferHelper),
          ((c5db.releaseInFlightBuffers).1.allocSeq ops).mBuffer = some c →
            c.id ≠ c5buf.id)) :=
  ⟨⟨by decide, by decide, by decide, by decide, by decide, by decide⟩,
    c5_releaseInFlightBuffers c2ctx c5db c5buf (by decide) (by decide) (by decide)
      (by decide) (by decide) (by decide)⟩

theorem growTargetSize_grow (n : Nat) (s : DynamicBuffer) (h : s.mSize < n) :
    s.growTargetSize n = { s with mSize := max s.mInitialSize n, mBufferFreeList := [] } := by
  unfold DynamicBuffer.growTargetSize; rw [if_pos h]

theorem growTargetSize_stay (n : Nat) (s : DynamicBuffer) (h : ¬ s.mSize < n) :
    s.growTargetSize n = s := by
  unfold DynamicBuffer.growTargetSize; rw [if_neg h]

theorem allocateNewBuffer_success (ctx : ContextVk) (s : DynamicBuffer)
    (h : ctx.bufferCreationSucceeds = true) :
    s.allocateNewBuffer ctx =
      ({ s with
          mBuffer := some { id := s.nextBufferId, size := s.mSize, queueSerial := 0 }
          nextBufferId := s.nextBufferId + 1 }, true) := by
  unfold DynamicBuffer.allocateNewBuffer; rw [if_pos h]

theorem allocateNewBuffer_failure (ctx : ContextVk) (s : DynamicBuffer)
    (h : ctx.bufferCreationSucceeds = false) :
    s.allocateNewBuffer ctx = (s, false) := by
  unfold DynamicBuffer.allocateNewBuffer
  rw [if_neg (by simp [h])]

theorem selectNewBuffer_empty (ctx : ContextVk) (s : DynamicBuffer)
    (h : s.mBufferFreeList = []) :
    s.selectNewBuffer ctx = s.allocateNewBuffer ctx := by
  unfold DynamicBuffer.selectNewBuffer; rw [h]

theorem selectNewBuffer_front_inUse (ctx : ContextVk) (s : DynamicBuffer)
    (front : BufferHelper) (rest : List BufferHelper)
    (h : s.mBufferFreeList = front :: rest) (hu : front.isResourceInUse ctx = true) :
    s.selectNewBuffer ctx = s.allocateNewBuffer ctx := by
  unfold DynamicBuffer.selectNewBuffer; rw [h]; simp [hu]

theorem selectNewBuffer_front_free (ctx : ContextVk) (s : DynamicBuffer)
    (front : BufferHelper) (rest : List BufferHelper)
    (h : s.mBufferFreeList = front :: rest) (hu : front.isResourceInUse ctx = false) :
    s.selectNewBuffer ctx =
      ({ s with mBuffer := some front, mBufferFreeList := rest }, true) := by
  unfold DynamicBuffer.selectNewBuffer; rw [h]; simp [hu]

theorem retireCurrentBuffer_mSize (ctx : ContextVk) (s : DynamicBuffer) :
    (s.retireCurrentBuffer ctx).mSize = s.mSize := by
  unfold DynamicBuffer.retireCurrentBuffer
  split
  · exact flush_mSize s
  · rfl

theorem retireCurrentBuffer_mInitialSize (ctx : ContextVk) (s : DynamicBuffer) :
    (s.retireCurrentBuffer ctx).mInitialSize = s.mInitialSize := by
  unfold DynamicBuffer.retireCurrentBuffer
  split
  · exact flush_mInitialSize s
  · rfl

theorem retireCurrentBuffer_mBufferFreeList (ctx : ContextVk) (s : DynamicBuffer) :
    (s.retireCurrentBuffer ctx).mBufferFreeList = s.mBufferFreeList := by
  unfold DynamicBuffer.retireCurrentBuffer
  split
  · exact flush_mBufferFreeList s
  · rfl

theorem retireCurrentBuffer_nextBufferId (ctx : ContextVk) (s : DynamicBuffer) :
    (s.retireCurrentBuffer ctx).nextBufferId = s.nextBufferId := by
  unfold DynamicBuffer.retireCurrentBuffer
  split
  · exact flush_nextBufferId s
  · rfl

theorem retireCurrentBuffer_mInFlightBuffers (ctx : ContextVk) (s : DynamicBuffer) :
    (s.retireCurrentBuffer ctx).mInFlightBuffers =
      s.mInFlightBuffers ++
        (match s.mBuffer with
          | some b => [{ b with queueSerial := ctx.currentQueueSerial }]
          | none => []) := by
  cases hbuf : s.mBuffer with
  | none => rw [retireCurrentBuffer_none ctx s hbuf]; simp
  | some b =>
      rw [retireCurrentBuffer_some ctx s b hbuf]
      simp [flush_mInFlightBuffers]

theorem allocate_rollover_success (ctx : ContextVk) (s : DynamicBuffer) (sz : Nat)
    (hc : s.mSize ≤ s.mNextAllocationOffset + roundUp sz s.mAlignment)
    (s3 : DynamicBuffer)
    (hsel : ((s.retireCurrentBuffer ctx).growTargetSize
        (roundUp sz s.mAlignment)).selectNewBuffer ctx = (s3, true)) :
    s.allocate ctx sz =
      ({ s3 with
          mNextAllocationOffset := (0 + roundUp sz s.mAlignment) % 2 ^ 32
          mLastFlushOrInvalidateOffset := 0 }, some (0, true)) := by
  unfold DynamicBuffer.allocate
  rw [if_pos hc, hsel]

theorem allocate_rollover_failure (ctx : ContextVk) (s : DynamicBuffer) (sz : Nat)
    (hc : s.mSize ≤ s.mNextAllocationOffset + roundUp sz s.mAlignment)
    (serr : DynamicBuffer)
    (hsel : ((s.retireCurrentBuffer ctx).growTargetSize
        (roundUp sz s.mAlignment)).selectNewBuffer ctx = (serr, false)) :
    s.allocate ctx sz = (serr, none) := by
  unfold DynamicBuffer.allocate
  rw [if_pos hc, hsel]

/-- The suballocator used by the C6 scenario: alignment 4, initial capacity
1024 bytes, nothing allocated yet (as left by `init`). -/
def c6db : DynamicBuffer :=
  { mHostVisible := false, mInitialSize := 1024, mBuffer := none
    mNextAllocationOffset := 0, mLastFlushOrInvalidateOffset := 0
    mSize := 0, mAlignment := 4, mInFlightBuffers := [], mBufferFreeList := []
    nextBufferId := 0 }

/-- Claim C6. When the current offset plus the aligned request would exceed the
current generation's capacity, `allocate` retires the current generation
(stamped with the current submission serial) to the in-flight list, grows the
target capacity to `max(mInitialSize, alignedRequest)` and discards the free
list whenever the aligned request exceeds the old target capacity, selects the
new current generation (free-list front if present and retired, else a fresh
buffer), and resets the offset watermark, returning offset 0 with the
new-generation flag.  Concretely (alignment 4, initial capacity 1024):
`allocate(100)` returns offset 0, and `allocate(2000)` grows the capacity to
2000, returns offset 0 in the new generation, and queues the prior generation
in-flight. -/
theorem c6_rollover_and_growth (ctx : ContextVk) (s : DynamicBuffer) (sz : Nat)
    (hsucc : ctx.bufferCreationSucceeds = true)
    (hexceed : s.mSize < s.mNextAllocationOffset + roundUp sz s.mAlignment) :
    (s.allocate ctx sz).2 = some (0, true) ∧
    (s.allocate ctx sz).1.mInFlightBuffers =
      s.mInFlightBuffers ++
        (match s.mBuffer with
          | some b => [{ b with queueSerial := ctx.currentQueueSerial }]
          | none => []) ∧
    (s.allocate ctx sz).1.mNextAllocationOffset = roundUp sz s.mAlignment % 2 ^ 32 ∧
    (s.mSize < roundUp sz s.mAlignment →
      (s.allocate ctx sz).1.mSize = max s.mInitialSize (roundUp sz s.mAlignment) ∧
      (s.allocate ctx sz).1.mBufferFreeList = [] ∧
      (s.allocate ctx sz).1.mBuffer =
        some { id := s.nextBufferId
               size := max s.mInitialSize (roundUp sz s.mAlignment), queueSerial := 0 }) ∧
    (roundUp sz s.mAlignment ≤ s.mSize →
      (s.allocate ctx sz).1.mSize = s.mSize ∧
      (s.mBufferFreeList = [] →
        (s.allocate ctx sz).1.mBuffer =
          some { id := s.nextBufferId, size := s.mSize, queueSerial := 0 }) ∧
      (∀ front rest, s.mBufferFreeList = front :: rest →
        (front.isResourceInUse ctx = false →
          (s.allocate ctx sz).1.mBuffer = some front ∧
          (s.allocate ctx sz).1.mBufferFreeList = rest) ∧
        (front.isResourceInUse ctx = true →
          (s.allocate ctx sz).1.mBuffer =
            some { id := s.nextBufferId, size := s.mSize, queueSerial := 0 }))) ∧
    ((c6db.allocRun c2ctx [100, 2000]).2 = [(0, 100, true), (0, 2000, true)] ∧
      (c6db.allocRun c2ctx [100, 2000]).1.mSize = 2000 ∧
      (c6db.allocRun c2ctx [100, 2000]).1.mInFlightBuffers =
        [{ id := 0, size := 1024, queueSerial := 5 }]) := by
  have hc : s.mSize ≤ s.mNextAllocationOffset + roundUp sz s.mAlignment :=
    Nat.le_of_lt hexceed
  by_cases hgrow : s.mSize < roundUp sz s.mAlignment
  · -- growth path: the free list is discarded and a fresh buffer is created
    have hg1 : (s.retireCurrentBuffer ctx).mSize < roundUp sz s.mAlignment := by
      rw [retireCurrentBuffer_mSize]; exact hgrow
    have hs2 := growTargetSize_grow (roundUp sz s.mAlignment) (s.retireCurrentBuffer ctx) hg1
    have hsel : ((s.retireCurrentBuffer ctx).growTargetSize
        (roundUp sz s.mAlignment)).selectNewBuffer ctx =
        ({ s.retireCurrentBuffer ctx with
            mSize := max (s.retireCurrentBuffer ctx).mInitialSize (roundUp sz s.mAlignment)
            mBufferFreeList := []
            mBuffer := some { id := (s.retireCurrentBuffer ctx).nextBufferId
                              size := max (s.retireCurrentBuffer ctx).mInitialSize
                                (roundUp sz s.mAlignment)
                              queueSerial := 0 }
            nextBufferId := (s.retireCurrentBuffer ctx).nextBufferId + 1 }, true) := by
      rw [hs2, selectNewBuffer_empty ctx _ rfl, allocateNewBuffer_success ctx _ hsucc]
    have hall := allocate_rollover_success ctx s sz hc _ hsel
    rw [hall]
    refine ⟨rfl, ?_, by simp, ?_, ?_, by exact ⟨rfl, rfl, rfl⟩⟩
    · simpa using retireCurrentBuffer_mInFlightBuffers ctx s
    · intro _
      refine ⟨?_, rfl, ?_⟩ <;>
        simp [retireCurrentBuffer_mInitialSize, retireCurrentBuffer_nextBufferId]
    · intro hle; omega
  · -- no growth: the free-list front is considered for reuse
    have hstay := growTargetSize_stay (roundUp sz s.mAlignment)
      (s.retireCurrentBuffer ctx) (by rw [retireCurrentBuffer_mSize]; exact hgrow)
    rcases hfl : s.mBufferFreeList with _ | ⟨front, rest⟩
    · -- empty free list: fresh buffer
      have hsel : ((s.retireCurrentBuffer ctx).growTargetSize
          (roundUp sz s.mAlignment)).selectNewBuffer ctx =
          ({ s.retireCurrentBuffer ctx with
              mBuffer := some { id := (s.retireCurrentBuffer ctx).nextBufferId
                                size := (s.retireCurrentBuffer ctx).mSize, queueSerial := 0 }
              nextBufferId := (s.retireCurrentBuffer ctx).nextBufferId + 1 }, true) := by
        rw [hstay, selectNewBuffer_empty ctx _
          (by rw [retireCurrentBuffer_mBufferFreeList]; exact hfl),
          allocateNewBuffer_success ctx _ hsucc]
      have hall := allocate_rollover_success ctx s sz hc _ hsel
      rw [hall]
      refine ⟨rfl, ?_, by simp, by intro h; omega, ?_, by exact ⟨rfl, rfl, rfl⟩⟩
      · simpa using retireCurrentBuffer_mInFlightBuffers ctx s
      · intro _
        refine ⟨by simp [retireCurrentBuffer_mSize], ?_, ?_⟩
        · intro _
          simp [retireCurrentBuffer_nextBufferId, retireCurrentBuffer_mSize]
        · intro front rest hcontra
          exact absurd hcontra (by simp)
    · cases hiu : front.isResourceInUse ctx with
      | true =>
          have hsel : ((s.retireCurrentBuffer ctx).growTargetSize
              (roundUp sz s.mAlignment)).selectNewBuffer ctx =
              ({ s.retireCurrentBuffer ctx with
                  mBuffer := some { id := (s.retireCurrentBuffer ctx).nextBufferId
                                    size := (s.retireCurrentBuffer ctx).mSize
                                    queueSerial := 0 }
                  nextBufferId := (s.retireCurrentBuffer ctx).nextBufferId + 1 }, true) := by
            rw [hstay, selectNewBuffer_front_inUse ctx _ front rest
              (by rw [retireCurrentBuffer_mBufferFreeList]; exact hfl) hiu,
              allocateNewBuffer_success ctx _ hsucc]
          have hall := allocate_rollover_success ctx s sz hc _ hsel
          rw [hall]
          refine ⟨rfl, ?_, by simp, by intro h; omega, ?_, by exact ⟨rfl, rfl, rfl⟩⟩
          · simpa using retireCurrentBuffer_mInFlightBuffers ctx s
          · intro _
            refine ⟨by simp [retireCurrentBuffer_mSize], ?_, ?_⟩
            · intro hcontra
              exact absurd hcontra (by simp)
            · intro front' rest' heq
              injection heq with h1 h2
              subst h1; subst h2
              refine ⟨fun hconfl => by simp [hconfl] at hiu, fun _ => ?_⟩
              simp [retireCurrentBuffer_nextBufferId, retireCurrentBuffer_mSize]
      | false =>
          have hsel : ((s.retireCurrentBuffer ctx).growTargetSize
              (roundUp sz s.mAlignment)).selectNewBuffer ctx =
              ({ s.retireCurrentBuffer ctx with
                  mBuffer := some front, mBufferFreeList := rest }, true) := by
            rw [hstay, selectNewBuffer_front_free ctx _ front rest
              (by rw [retireCurrentBuffer_mBufferFreeList]; exact hfl) hiu]
          have hall := allocate_rollover_success ctx s sz hc _ hsel
          rw [hall]
          refine ⟨rfl, ?_, by simp, by intro h; omega, ?_, by exact ⟨rfl, rfl, rfl⟩⟩
          · simpa using retireCurrentBuffer_mInFlightBuffers ctx s
          · intro _
            refine ⟨by simp [retireCurrentBuffer_mSize], ?_, ?_⟩
            · intro hcontra
              exact absurd hcontra (by simp)
            · intro front' rest' heq
              injection heq with h1 h2
              subst h1; subst h2
              refine ⟨fun _ => ⟨rfl, rfl⟩, fun hconfl => by simp [hconfl] at hiu⟩

/-- The C6 scenario state after `allocate(100)`: one 1024-byte generation,
watermark 100. -/
def c6s1 : DynamicBuffer :=
  { mHostVisible := false, mInitialSize := 1024
    mBuffer := some { id := 0, size := 1024, queueSerial := 0 }
    mNextAllocationOffset := 100, mLastFlushOrInvalidateOffset := 0
    mSize := 1024, mAlignment := 4, mInFlightBuffers := [], mBufferFreeList := []
    nextBufferId := 1 }

/-- Witness for `c6_rollover_and_growth` at `allocate(2000)` out of the
scenario state. -/
theorem c6_witness :
    (c2ctx.bufferCreationSucceeds = true ∧
      c6s1.mSize < c6s1.mNextAllocationOffset + roundUp 2000 c6s1.mAlignment) ∧
    ((c6s1.allocate c2ctx 2000).2 = some (0, true) ∧
      (c6s1.allocate c2ctx 2000).1.mInFlightBuffers =
        c6s1.mInFlightBuffers ++
          (match c6s1.mBuffer with
            | some b => [{ b with queueSerial := c2ctx.currentQueueSerial }]
            | none => []) ∧
      (c6s1.allocate c2ctx 2000).1.mNextAllocationOffset =
        roundUp 2000 c6s1.mAlignment % 2 ^ 32 ∧
      (c6s1.mSize < roundUp 2000 c6s1.mAlignment →
        (c6s1.allocate c2ctx 2000).1.mSize =
          max c6s1.mInitialSize (roundUp 2000 c6s1.mAlignment) ∧
        (c6s1.allocate c2ctx 2000).1.mBufferFreeList = [] ∧
        (c6s1.allocate c2ctx 2000).1.mBuffer =
          some { id := c6s1.nextBufferId
                 size := max c6s1.mInitialSize (roundUp 2000 c6s1.mAlignment)
                 queueSerial := 0 }) ∧
      (roundUp 2000 c6s1.mAlignment ≤ c6s1.mSize →
        (c6s1.allocate c2ctx 2000).1.mSize = c6s1.mSize ∧
        (c6s1.mBufferFreeList = [] →
          (c6s1.allocate c2ctx 2000).1.mBuffer =
            some { id := c6s1.nextBufferId, size := c6s1.mSize, queueSerial := 0 }) ∧
        (∀ front rest, c6s1.mBufferFreeList = front :: rest →
          (front.isResourceInUse c2ctx = false →
            (c6s1.allocate c2ctx 2000).1.mBuffer = some front ∧
            (c6s1.allocate c2ctx 2000).1.mBufferFreeList = rest) ∧
          (front.isResourceInUse c2ctx = true →
            (c6s1.allocate c2ctx 2000).1.mBuffer =
              some { id := c6s1.nextBufferId, size := c6s1.mSize, queueSerial := 0 }))) ∧
      ((c6db.allocRun c2ctx [100, 2000]).2 = [(0, 100, true), (0, 2000, true)] ∧
        (c6db.allocRun c2ctx [100, 2000]).1.mSize = 2000 ∧
        (c6db.allocRun c2ctx [100, 2000]).1.mInFlightBuffers =
          [{ id := 0, size := 1024, queueSerial := 5 }])) :=
  ⟨⟨rfl, by decide⟩, c6_rollover_and_growth c2ctx c6s1 2000 rfl (by decide)⟩

theorem flush_mNextAllocationOffset (s : DynamicBuffer) :
    s.flush.mNextAllocationOffset = s.mNextAllocationOffset := by
  unfold DynamicBuffer.flush; split <;> rfl

theorem retireCurrentBuffer_mNextAllocationOffset (ctx : ContextVk) (s : DynamicBuffer) :
    (s.retireCurrentBuffer ctx).mNextAllocationOffset = s.mNextAllocationOffset := by
  unfold DynamicBuffer.retireCurrentBuffer
  split
  · exact flush_mNextAllocationOffset s
  · rfl

theorem retireCurrentBuffer_mBuffer_none (ctx : ContextVk) (s : DynamicBuffer) :
    (s.retireCurrentBuffer ctx).mBuffer = s.mBuffer ∨
    (s.retireCurrentBuffer ctx).mBuffer = none := by
  cases hbuf : s.mBuffer with
  | none => rw [retireCurrentBuffer_none ctx s hbuf]; exact Or.inl hbuf
  | some b => rw [retireCurrentBuffer_some ctx s b hbuf]; exact Or.inr rfl

theorem growTargetSize_mBuffer (n : Nat) (s : DynamicBuffer) :
    (s.growTargetSize n).mBuffer = s.mBuffer := by
  unfold DynamicBuffer.growTargetSize; split <;> rfl

theorem growTargetSize_mInFlightBuffers (n : Nat) (s : DynamicBuffer) :
    (s.growTargetSize n).mInFlightBuffers = s.mInFlightBuffers := by
  unfold DynamicBuffer.growTargetSize; split <;> rfl

theorem growTargetSize_mNextAllocationOffset (n : Nat) (s : DynamicBuffer) :
    (s.growTargetSize n).mNextAllocationOffset = s.mNextAllocationOffset := by
  unfold DynamicBuffer.growTargetSize; split <;> rfl

/-- Claim C9 (amended). When device buffer creation fails during an `allocate`
that rolled over to a new generation, the failure propagates as a fallible
result (`none`) and the current-generation pointer is not set (it is only
assigned after a successful init, and `allocateNewBuffer` leaves the state
untouched on failure); but contrary to the claim, the bookkeeping mutations
made *before* the failing step remain: the post state is exactly the
retire-then-grow state, so the prior generation stays moved in-flight with the
current serial stamped, and, on a growth, the increased target capacity and
the discarded free list remain. -/
theorem c9_failure_propagation (ctx : ContextVk) (s : DynamicBuffer) (sz : Nat)
    (hfail : ctx.bufferCreationSucceeds = false)
    (hroll : s.mSize ≤ s.mNextAllocationOffset + roundUp sz s.mAlignment)
    (hserve : s.mSize < roundUp sz s.mAlignment ∨ s.mBufferFreeList = [] ∨
      ∃ front rest, s.mBufferFreeList = front :: rest ∧
        front.isResourceInUse ctx = true) :
    (s.allocate ctx sz).2 = none ∧
    (s.allocate ctx sz).1.mBuffer = none ∧
    (s.allocate ctx sz).1 =
      (s.retireCurrentBuffer ctx).growTargetSize (roundUp sz s.mAlignment) ∧
    (s.allocate ctx sz).1.mNextAllocationOffset = s.mNextAllocationOffset ∧
    (s.allocate ctx sz).1.mInFlightBuffers =
      s.mInFlightBuffers ++
        (match s.mBuffer with
          | some b => [{ b with queueSerial := ctx.currentQueueSerial }]
          | none => []) ∧
    (∀ t : DynamicBuffer, t.allocateNewBuffer ctx = (t, false)) := by
  have hsel : ((s.retireCurrentBuffer ctx).growTargetSize
      (roundUp sz s.mAlignment)).selectNewBuffer ctx =
      ((s.retireCurrentBuffer ctx).growTargetSize (roundUp sz s.mAlignment), false) := by
    by_cases hgrow : s.mSize < roundUp sz s.mAlignment
    · have hg1 : (s.retireCurrentBuffer ctx).mSize < roundUp sz s.mAlignment := by
        rw [retireCurrentBuffer_mSize]; exact hgrow
      rw [selectNewBuffer_empty ctx _
        (by rw [growTargetSize_grow _ _ hg1]),
        allocateNewBuffer_failure ctx _ hfail]
    · have hstay := growTargetSize_stay (roundUp sz s.mAlignment)
        (s.retireCurrentBuffer ctx) (by rw [retireCurrentBuffer_mSize]; exact hgrow)
      rcases hserve with hg | hempty | ⟨front, rest, hfl, hiu⟩
      · exact absurd hg hgrow
      · rw [selectNewBuffer_empty ctx _
          (by rw [hstay, retireCurrentBuffer_mBufferFreeList]; exact hempty),
          allocateNewBuffer_failure ctx _ hfail]
      · rw [selectNewBuffer_front_inUse ctx _ front rest
          (by rw [hstay, retireCurrentBuffer_mBufferFreeList]; exact hfl) hiu,
          allocateNewBuffer_failure ctx _ hfail]
  have hall := allocate_rollover_failure ctx s sz hroll _ hsel
  rw [hall]
  refine ⟨rfl, ?_, rfl, ?_, ?_, fun t => allocateNewBuffer_failure ctx t hfail⟩
  · rw [growTargetSize_mBuffer]
    rcases retireCurrentBuffer_mBuffer_none ctx s with h | h
    · cases hbuf : s.mBuffer with
      | none => rw [h, hbuf]
      | some b => rw [retireCurrentBuffer_some ctx s b hbuf]
    · exact h
  · rw [growTargetSize_mNextAllocationOffset, retireCurrentBuffer_mNextAllocationOffset]
  · rw [growTargetSize_mInFlightBuffers, retireCurrentBuffer_mInFlightBuffers]

/-- Allocator state and context for the C9 counterexample: a current 1024-byte
generation at watermark 100, one free generation (id 5), and a device whose
buffer creation fails. -/
def c9db : DynamicBuffer :=
  { mHostVisible := false, mInitialSize := 1024
    mBuffer := some { id := 0, size := 1024, queueSerial := 0 }
    mNextAllocationOffset := 100, mLastFlushOrInvalidateOffset := 0
    mSize := 1024, mAlignment := 4, mInFlightBuffers := []
    mBufferFreeList := [{ id := 5, size := 1024, queueSerial := 1 }]
    nextBufferId := 6 }

def c9ctx : ContextVk :=
  { currentQueueSerial := 7, lastCompletedQueueSerial := 3, bufferCreationSucceeds := false }

/-- Claim C9 counterexample. A failed `allocate(2000)` (device creation fails
after the request grew the target capacity) propagates the failure, but the
internal bookkeeping does *not* remain in its prior state: the free list has
been discarded and the prior generation has been moved in-flight. -/
theorem c9_counterexample :
    (c9db.allocate c9ctx 2000).2 = none ∧
    (c9db.allocate c9ctx 2000).1.mBufferFreeList = [] ∧
    c9db.mBufferFreeList = [{ id := 5, size := 1024, queueSerial := 1 }] ∧
    (c9db.allocate c9ctx 2000).1.mInFlightBuffers ≠ c9db.mInFlightBuffers :=
  ⟨rfl, rfl, rfl, by decide⟩

/-- Witness for `c9_failure_propagation` at the concrete failing state. -/
theorem c9_witness :
    (c9ctx.bufferCreationSucceeds = false ∧
      c9db.mSize ≤ c9db.mNextAllocationOffset + roundUp 2000 c9db.mAlignment ∧
      (c9db.mSize < roundUp 2000 c9db.mAlignment ∨ c9db.mBufferFreeList = [] ∨
        ∃ front rest, c9db.mBufferFreeList = front :: rest ∧
          front.isResourceInUse c9ctx = true)) ∧
    ((c9db.allocate c9ctx 2000).2 = none ∧
      (c9db.allocate c9ctx 2000).1.mBuffer = none ∧
      (c9db.allocate c9ctx 2000).1 =
        (c9db.retireCurrentBuffer c9ctx).growTargetSize (roundUp 2000 c9db.mAlignment) ∧
      (c9db.allocate c9ctx 2000).1.mNextAllocationOffset = c9db.mNextAllocationOffset ∧
      (c9db.allocate c9ctx 2000).1.mInFlightBuffers =
        c9db.mInFlightBuffers ++
          (match c9db.mBuffer with
            | some b => [{ b with queueSerial := c9ctx.currentQueueSerial }]
            | none => []) ∧
      (∀ t : DynamicBuffer, t.allocateNewBuffer c9ctx = (t, false))) :=
  ⟨⟨rfl, by decide, Or.inl (by decide)⟩,
    c9_failure_propagation c9ctx c9db 2000 rfl (by decide) (Or.inl (by decide))⟩

/-! Section: Helper lemmas: DynamicallyGrowingPool -/

theorem findFreeEntryPool_false (ctx : ContextVk) (s : DynamicallyGrowingPool)
    (h : s.mPoolStats.findIdx?
      (fun ps => ps.freedCount == s.mPoolSize &&
        decide (ps.serial ≤ ctx.lastCompletedQueueSerial)) = none) :
    s.findFreeEntryPool ctx = (s, false) := by
  unfold DynamicallyGrowingPool.findFreeEntryPool
  rw [h]

theorem findFreeEntryPool_some (ctx : ContextVk) (s : DynamicallyGrowingPool) (i : Nat)
    (h : s.mPoolStats.findIdx?
      (fun ps => ps.freedCount == s.mPoolSize &&
        decide (ps.serial ≤ ctx.lastCompletedQueueSerial)) = some i) :
    s.findFreeEntryPool ctx =
      ({ s with
          mCurrentPool := i
          mCurrentFreeEntry := 0
          mPoolStats :=
            s.mPoolStats.set i { (s.mPoolStats.getD i default) with freedCount := 0 } },
        true) := by
  unfold DynamicallyGrowingPool.findFreeEntryPool
  rw [h]

/-- Claim C7. The recyclable pool's bookkeeping: (1) `freedCount ≤ capacity` is
preserved by scanning, by pool growth, and by `onEntryFreed` under its
asserted precondition `freedCount < capacity`; (2) `findFreeEntryPool` selects
a pool as reuse target only when its freed count equals the capacity and its
recorded last-free serial is retired, and the reused pool's freed count resets
to zero; (3) `onEntryFreed` stamps the current submission serial and bumps the
freed count; (4) an `allocateEntry` that hits exhaustion and does not append a
new pool has reused a fully-freed, retired pool — premature reuse never
occurs. -/
theorem c7_pool_freed_count_and_reuse (ctx : ContextVk) (s : DynamicallyGrowingPool) :
    ((∀ ps ∈ s.mPoolStats, ps.freedCount ≤ s.mPoolSize) →
      (∀ ps ∈ (s.findFreeEntryPool ctx).1.mPoolStats, ps.freedCount ≤ s.mPoolSize) ∧
      (∀ ps ∈ s.allocateNewEntryPool.mPoolStats, ps.freedCount ≤ s.mPoolSize) ∧
      (∀ i, (s.mPoolStats.getD i default).freedCount < s.mPoolSize →
        ∀ ps ∈ (s.onEntryFreed ctx i).mPoolStats, ps.freedCount ≤ s.mPoolSize)) ∧
    ((s.findFreeEntryPool ctx).2 = true →
      (s.mPoolStats.getD (s.findFreeEntryPool ctx).1.mCurrentPool default).freedCount =
        s.mPoolSize ∧
      (s.mPoolStats.getD (s.findFreeEntryPool ctx).1.mCurrentPool default).serial ≤
        ctx.lastCompletedQueueSerial ∧
      ((s.findFreeEntryPool ctx).1.mPoolStats.getD
        (s.findFreeEntryPool ctx).1.mCurrentPool default).freedCount = 0 ∧
      (s.findFreeEntryPool ctx).1.mCurrentFreeEntry = 0) ∧
    (∀ i, i < s.mPoolStats.length →
      (s.onEntryFreed ctx i).mPoolStats.getD i default =
        { freedCount := (s.mPoolStats.getD i default).freedCount + 1
          serial := ctx.currentQueueSerial }) ∧
    (s.mPoolSize ≤ s.mCurrentFreeEntry →
      (s.allocateEntry ctx).1.mPoolStats.length = s.mPoolStats.length →
      (s.mPoolStats.getD (s.allocateEntry ctx).1.mCurrentPool default).freedCount =
        s.mPoolSize ∧
      (s.mPoolStats.getD (s.allocateEntry ctx).1.mCurrentPool default).serial ≤
        ctx.lastCompletedQueueSerial) := by
  have hfind : ∀ i, s.mPoolStats.findIdx?
      (fun ps => ps.freedCount == s.mPoolSize &&
        decide (ps.serial ≤ ctx.lastCompletedQueueSerial)) = some i →
      i < s.mPoolStats.length ∧
      (s.mPoolStats.getD i default).freedCount = s.mPoolSize ∧
      (s.mPoolStats.getD i default).serial ≤ ctx.lastCompletedQueueSerial := by
    intro i hi
    obtain ⟨hlen, hpred, -⟩ := List.findIdx?_eq_some_iff_getElem.mp hi
    simp only [List.getD_eq_getElem?_getD, List.getElem?_eq_getElem hlen]
    simp at hpred
    exact ⟨hlen, hpred.1, hpred.2⟩
  refine ⟨?_, ?_, ?_, ?_⟩
  · intro hinv
    refine ⟨?_, ?_, ?_⟩
    · intro ps hps
      cases hidx : s.mPoolStats.findIdx?
          (fun ps => ps.freedCount == s.mPoolSize &&
            decide (ps.serial ≤ ctx.lastCompletedQueueSerial)) with
      | none =>
          rw [findFreeEntryPool_false ctx s hidx] at hps
          exact hinv ps hps
      | some i =>
          rw [findFreeEntryPool_some ctx s i hidx] at hps
          rcases List.mem_or_eq_of_mem_set hps with hmem | heq
          · exact hinv ps hmem
          · subst heq; simp
    · intro ps hps
      unfold DynamicallyGrowingPool.allocateNewEntryPool at hps
      rcases List.mem_append.mp hps with hmem | hnew
      · exact hinv ps hmem
      · simp at hnew; subst hnew; simp
    · intro i hassert ps hps
      unfold DynamicallyGrowingPool.onEntryFreed at hps
      rcases List.mem_or_eq_of_mem_set hps with hmem | heq
      · exact hinv ps hmem
      · subst heq; simpa using hassert
  · intro htrue
    cases hidx : s.mPoolStats.findIdx?
        (fun ps => ps.freedCount == s.mPoolSize &&
          decide (ps.serial ≤ ctx.lastCompletedQueueSerial)) with
    | none =>
        rw [findFreeEntryPool_false ctx s hidx] at htrue
        simp at htrue
    | some i =>
        obtain ⟨hlen, hfc, hser⟩ := hfind i hidx
        rw [findFreeEntryPool_some ctx s i hidx]
        refine ⟨hfc, hser, ?_, rfl⟩
        simp only [List.getD_eq_getElem?_getD, List.getElem?_set_self hlen]
        rfl
  · intro i hlen
    unfold DynamicallyGrowingPool.onEntryFreed
    simp only [List.getD_eq_getElem?_getD, List.getElem?_set_self hlen]
    rfl
  · intro hex hlen
    unfold DynamicallyGrowingPool.allocateEntry
    unfold DynamicallyGrowingPool.allocateEntry at hlen
    rw [if_pos hex] at hlen ⊢
    cases hidx : s.mPoolStats.findIdx?
        (fun ps => ps.freedCount == s.mPoolSize &&
          decide (ps.serial ≤ ctx.lastCompletedQueueSerial)) with
    | none =>
        exfalso
        rw [findFreeEntryPool_false ctx s hidx] at hlen
        simp [DynamicallyGrowingPool.allocateNewEntryPool] at hlen
    | some i =>
        obtain ⟨-, hfc, hser⟩ := hfind i hidx
        rw [findFreeEntryPool_some ctx s i hidx]
        exact ⟨hfc, hser⟩

/-- Pool-manager state for the C7 witness: pool size 3, pool 0 fully freed at
serial 1, pool 1 partially freed, current pool exhausted. -/
def c7gp : DynamicallyGrowingPool :=
  { mPoolSize := 3
    mPoolStats := [{ freedCount := 3, serial := 1 }, { freedCount := 2, serial := 0 }]
    mCurrentPool := 1, mCurrentFreeEntry := 3 }

/-- Witness for `c7_pool_freed_count_and_reuse` at a concrete pool manager,
with every hypothesis discharged there. -/
theorem c7_witness :
    ((∀ ps ∈ (c7gp.findFreeEntryPool c2ctx).1.mPoolStats, ps.freedCount ≤ c7gp.mPoolSize) ∧
      (∀ ps ∈ c7gp.allocateNewEntryPool.mPoolStats, ps.freedCount ≤ c7gp.mPoolSize) ∧
      (∀ i, (c7gp.mPoolStats.getD i default).freedCount < c7gp.mPoolSize →
        ∀ ps ∈ (c7gp.onEntryFreed c2ctx i).mPoolStats, ps.freedCount ≤ c7gp.mPoolSize)) ∧
    ((c7gp.mPoolStats.getD (c7gp.findFreeEntryPool c2ctx).1.mCurrentPool default).freedCount =
        c7gp.mPoolSize ∧
      (c7gp.mPoolStats.getD (c7gp.findFreeEntryPool c2ctx).1.mCurrentPool default).serial ≤
        c2ctx.lastCompletedQueueSerial ∧
      ((c7gp.findFreeEntryPool c2ctx).1.mPoolStats.getD
        (c7gp.findFreeEntryPool c2ctx).1.mCurrentPool default).freedCount = 0 ∧
      (c7gp.findFreeEntryPool c2ctx).1.mCurrentFreeEntry = 0) ∧
    ((c7gp.onEntryFreed c2ctx 1).mPoolStats.getD 1 default =
      { freedCount := (c7gp.mPoolStats.getD 1 default).freedCount + 1
        serial := c2ctx.currentQueueSerial }) ∧
    ((c7gp.mPoolStats.getD (c7gp.allocateEntry c2ctx).1.mCurrentPool default).freedCount =
        c7gp.mPoolSize ∧
      (c7gp.mPoolStats.getD (c7gp.allocateEntry c2ctx).1.mCurrentPool default).serial ≤
        c2ctx.lastCompletedQueueSerial) :=
  ⟨(c7_pool_freed_count_and_reuse c2ctx c7gp).1 (by decide),
    (c7_pool_freed_count_and_reuse c2ctx c7gp).2.1 (by decide),
    (c7_pool_freed_count_and_reuse c2ctx c7gp).2.2.1 1 (by decide),
    (c7_pool_freed_count_and_reuse c2ctx c7gp).2.2.2 (by decide) (by decide)⟩

/-- Claim C8 (amended). When `DynamicDescriptorPool::allocateNewPool` finds an
existing pool instance that is unreferenced and whose recorded serial is
retired, it reuses that same pool instance — the pool list does not grow and
the current index moves to it — but, contrary to the claim, a new *native*
pool object is constructed: `DescriptorPoolHelper::init` destroys the old
native pool and creates a fresh one, so a native-pool-objects-constructed
counter increments by one. -/
theorem c8_pool_instance_reuse (ctx : ContextVk) (s : DynamicDescriptorPool) (i : Nat)
    (hfind : s.mDescriptorPools.findIdx?
      (fun p => !p.referenced && !(ctx.isSerialInUse p.helper.serial)) = some i) :
    (s.allocateNewPool ctx).mDescriptorPools.length = s.mDescriptorPools.length ∧
    (s.allocateNewPool ctx).mCurrentPoolIndex = i ∧
    (s.allocateNewPool ctx).nativePoolsConstructed = s.nativePoolsConstructed + 1 ∧
    ((s.allocateNewPool ctx).mDescriptorPools.getD i default).helper =
      { poolValid := true, mFreeDescriptorSets := s.mMaxSetsPerPool, serial := 0 } ∧
    (s.mDescriptorPools.getD i default).referenced = false ∧
    (s.mDescriptorPools.getD i default).helper.serial ≤ ctx.lastCompletedQueueSerial := by
  obtain ⟨hlen, hpred, -⟩ := List.findIdx?_eq_some_iff_getElem.mp hfind
  simp only [Bool.and_eq_true, Bool.not_eq_true'] at hpred
  unfold DynamicDescriptorPool.allocateNewPool
  rw [hfind]
  refine ⟨by simp, rfl, rfl, ?_, ?_, ?_⟩
  · simp only [List.getD_eq_getElem?_getD, List.getElem?_set_self hlen]
    rfl
  · simp only [List.getD_eq_getElem?_getD, List.getElem?_eq_getElem hlen]
    exact hpred.1
  · simp only [List.getD_eq_getElem?_getD, List.getElem?_eq_getElem hlen]
    have := hpred.2
    simp [ContextVk.isSerialInUse] at this
    exact this

/-- Descriptor-pool manager for the C8 counterexample and witness: one
exhausted, unreferenced pool instance whose serial is retired; one native pool
object constructed so far. -/
def c8dp : DynamicDescriptorPool :=
  { mMaxSetsPerPool := 128, mCurrentPoolIndex := 0
    mDescriptorPools :=
      [{ helper := { poolValid := true, mFreeDescriptorSets := 0, serial := 1 }
         referenced := false }]
    nativePoolsConstructed := 1 }

/-- Claim C8 counterexample. Reusing the retired pool instance keeps the pool
list at one instance, but the native-pool-objects-constructed counter goes
from 1 to 2 — it does not stay unchanged as the claim asserts. -/
theorem c8_counterexample :
    (c8dp.allocateNewPool c2ctx).mDescriptorPools.length = c8dp.mDescriptorPools.length ∧
    (c8dp.allocateNewPool c2ctx).nativePoolsConstructed = 2 ∧
    c8dp.nativePoolsConstructed = 1 :=
  ⟨rfl, rfl, rfl⟩

/-- Witness for `c8_pool_instance_reuse` at the concrete manager. -/
theorem c8_witness :
    (c8dp.mDescriptorPools.findIdx?
      (fun p => !p.referenced && !(c2ctx.isSerialInUse p.helper.serial)) = some 0) ∧
    ((c8dp.allocateNewPool c2ctx).mDescriptorPools.length =
        c8dp.mDescriptorPools.length ∧
      (c8dp.allocateNewPool c2ctx).mCurrentPoolIndex = 0 ∧
      (c8dp.allocateNewPool c2ctx).nativePoolsConstructed =
        c8dp.nativePoolsConstructed + 1 ∧
      ((c8dp.allocateNewPool c2ctx).mDescriptorPools.getD 0 default).helper =
        { poolValid := true, mFreeDescriptorSets := c8dp.mMaxSetsPerPool, serial := 0 } ∧
      (c8dp.mDescriptorPools.getD 0 default).referenced = false ∧
      (c8dp.mDescriptorPools.getD 0 default).helper.serial ≤
        c2ctx.lastCompletedQueueSerial) :=
  ⟨by decide, c8_pool_instance_reuse c2ctx c8dp 0 (by decide)⟩

/-! Section: Helper lemmas: staged-update flush -/

theorem changeLayout_preserves (img : ImageHelper) (a : Nat) (l : ImageLayout) :
    (img.changeLayout a l).1.mLevelCount = img.mLevelCount ∧
    (img.changeLayout a l).1.mLayerCount = img.mLayerCount ∧
    (img.changeLayout a l).1.formatIsDepthStencil = img.formatIsDepthStencil ∧
    (img.changeLayout a l).1.aspectFlags = img.aspectFlags ∧
    (img.changeLayout a l).1.mSubresourceUpdates = img.mSubresourceUpdates ∧
    (img.changeLayout a l).1.mStagingBuffer = img.mStagingBuffer := by
  unfold ImageHelper.changeLayout ImageHelper.forceChangeLayoutAndQueue
  split
  · exact ⟨rfl, rfl, rfl, rfl, rfl, rfl⟩
  · split
    · exact ⟨rfl, rfl, rfl, rfl, rfl, rfl⟩
    · exact ⟨rfl, rfl, rfl, rfl, rfl, rfl⟩

theorem changeLayout_cmds_barriers (img : ImageHelper) (a : Nat) (l : ImageLayout) :
    ∀ c ∈ (img.changeLayout a l).2, c.isBarrierCmd = true := by
  unfold ImageHelper.changeLayout ImageHelper.forceChangeLayoutAndQueue
  split
  · simp
  · split
    · intro c hc
      simp at hc
      subst hc
      rfl
    · intro c hc
      simp at hc
      subst hc
      rfl

theorem updateCoords_congr (i1 i2 : ImageHelper) (h : i1.mLayerCount = i2.mLayerCount)
    (u : SubresourceUpdate) : i1.updateCoords u = i2.updateCoords u := by
  unfold ImageHelper.updateCoords
  cases u.updateSource <;> simp [h]

theorem clearCmds_congr (i1 i2 : ImageHelper)
    (h : i1.formatIsDepthStencil = i2.formatIsDepthStencil) (a b c : Nat) :
    i1.clearCmds a b c = i2.clearCmds a b c := by
  unfold ImageHelper.clearCmds
  rw [h]

theorem applyCmdsFor_congr (i1 i2 : ImageHelper)
    (hL : i1.mLayerCount = i2.mLayerCount)
    (hF : i1.formatIsDepthStencil = i2.formatIsDepthStencil)
    (u : SubresourceUpdate) : applyCmdsFor i1 u = applyCmdsFor i2 u := by
  unfold applyCmdsFor
  rw [updateCoords_congr i1 i2 hL u]
  cases u.updateSource <;> simp [clearCmds_congr i1 i2 hF]

theorem applyCmdsFor_nonbarrier (img : ImageHelper) (u : SubresourceUpdate) :
    ∀ c ∈ applyCmdsFor img u, c.isBarrierCmd = false := by
  intro c hc
  unfold applyCmdsFor at hc
  cases hsrc : u.updateSource with
  | Clear =>
      simp only [hsrc] at hc
      unfold ImageHelper.clearCmds at hc
      split at hc <;> (simp at hc; subst hc; rfl)
  | Buffer =>
      simp only [hsrc] at hc
      simp at hc; subst hc; rfl
  | Image =>
      simp only [hsrc] at hc
      simp at hc
      rcases hc with hc | hc <;> (subst hc; rfl)

theorem flushStep_outside (ls le lys lye : Nat) (st : FlushState) (u : SubresourceUpdate)
    (h : outsideWindow ls le lys lye (st.img.updateCoords u) = true) :
    flushStep ls le lys lye st u = { st with keep := st.keep ++ [u] } := by
  unfold flushStep
  rw [if_pos h]

theorem flushStep_inside (ls le lys lye : Nat) (st : FlushState) (u : SubresourceUpdate)
    (h : outsideWindow ls le lys lye (st.img.updateCoords u) = false) :
    flushStep ls le lys lye st u =
      { img := (if (subresourceHazardStep st.img.mLayerCount st.mask
            (st.img.updateCoords u).1 (st.img.updateCoords u).2.1
            (st.img.updateCoords u).2.2).1 then
            (st.img.changeLayout st.img.aspectFlags ImageLayout.TransferDst).1
          else st.img)
        mask := (subresourceHazardStep st.img.mLayerCount st.mask
          (st.img.updateCoords u).1 (st.img.updateCoords u).2.1
          (st.img.updateCoords u).2.2).2
        keep := st.keep
        cmds := st.cmds ++
          (if (subresourceHazardStep st.img.mLayerCount st.mask
              (st.img.updateCoords u).1 (st.img.updateCoords u).2.1
              (st.img.updateCoords u).2.2).1 then
            (st.img.changeLayout st.img.aspectFlags ImageLayout.TransferDst).2
          else []) ++ applyCmdsFor st.img u } := by
  unfold flushStep
  rw [if_neg (by simp [h])]
  have hpres := changeLayout_preserves st.img st.img.aspectFlags ImageLayout.TransferDst
  by_cases hz : (subresourceHazardStep st.img.mLayerCount st.mask
      (st.img.updateCoords u).1 (st.img.updateCoords u).2.1
      (st.img.updateCoords u).2.2).1 = true
  · simp only [hz, if_true]
    have happ := applyCmdsFor_congr
      (st.img.changeLayout st.img.aspectFlags ImageLayout.TransferDst).1 st.img
      hpres.2.1 hpres.2.2.1 u
    rw [happ]
  · simp only [Bool.not_eq_true] at hz
    simp only [hz, Bool.false_eq_true, if_false]

/-- Characterization of the `flushStagedUpdates` walk: the kept updates are
exactly the out-of-window ones (in order), the non-barrier commands are the
applications of the in-window ones (in order), and the image's
non-layout fields and staging buffer are untouched. -/
theorem flushFold_spec (ls le lys lye : Nat) :
    ∀ (us : List SubresourceUpdate) (st : FlushState),
      (us.foldl (flushStep ls le lys lye) st).img.mLayerCount = st.img.mLayerCount ∧
      (us.foldl (flushStep ls le lys lye) st).img.formatIsDepthStencil =
        st.img.formatIsDepthStencil ∧
      (us.foldl (flushStep ls le lys lye) st).img.mStagingBuffer = st.img.mStagingBuffer ∧
      (us.foldl (flushStep ls le lys lye) st).img.mSubresourceUpdates =
        st.img.mSubresourceUpdates ∧
      (us.foldl (flushStep ls le lys lye) st).keep =
        st.keep ++ us.filter (fun u => outsideWindow ls le lys lye (st.img.updateCoords u)) ∧
      (us.foldl (flushStep ls le lys lye) st).cmds.filter (fun c => !c.isBarrierCmd) =
        st.cmds.filter (fun c => !c.isBarrierCmd) ++
          (us.filter
            (fun u => !(outsideWindow ls le lys lye (st.img.updateCoords u)))).bind
            (applyCmdsFor st.img) := by
  intro us
  induction us with
  | nil => intro st; simp
  | cons u rest ih =>
      intro st
      rw [List.foldl_cons]
      by_cases hout : outsideWindow ls le lys lye (st.img.updateCoords u) = true
      · rw [flushStep_outside ls le lys lye st u hout]
        obtain ⟨ih1, ih2, ih3, ih4, ih5, ih6⟩ := ih { st with keep := st.keep ++ [u] }
        refine ⟨ih1, ih2, ih3, ih4, ?_, ?_⟩
        · rw [ih5]
          simp [List.filter_cons, hout]
        · rw [ih6]
          simp [List.filter_cons, hout]
      · have hout' : outsideWindow ls le lys lye (st.img.updateCoords u) = false := by
          simpa using hout
        rw [flushStep_inside ls le lys lye st u hout']
        set flag := (subresourceHazardStep st.img.mLayerCount st.mask
          (st.img.updateCoords u).1 (st.img.updateCoords u).2.1
          (st.img.updateCoords u).2.2).1 with hflag
        set m2 := (subresourceHazardStep st.img.mLayerCount st.mask
          (st.img.updateCoords u).1 (st.img.updateCoords u).2.1
          (st.img.updateCoords u).2.2).2 with hm2
        set img' : ImageHelper :=
          (if flag then
            (st.img.changeLayout st.img.aspectFlags ImageLayout.TransferDst).1
          else st.img) with himg'
        set bar : List Command :=
          (if flag then
            (st.img.changeLayout st.img.aspectFlags ImageLayout.TransferDst).2
          else []) with hbar
        have hpres := changeLayout_preserves st.img st.img.aspectFlags ImageLayout.TransferDst
        have hL : img'.mLayerCount = st.img.mLayerCount := by
          rw [himg']; split
          · exact hpres.2.1
          · rfl
        have hF : img'.formatIsDepthStencil = st.img.formatIsDepthStencil := by
          rw [himg']; split
          · exact hpres.2.2.1
          · rfl
        have hS : img'.mStagingBuffer = st.img.mStagingBuffer := by
          rw [himg']; split
          · exact hpres.2.2.2.2.2
          · rfl
        have hU : img'.mSubresourceUpdates = st.img.mSubresourceUpdates := by
          rw [himg']; split
          · exact hpres.2.2.2.2.1
          · rfl
        have hbarFilter : bar.filter (fun c => !c.isBarrierCmd) = [] := by
          rw [hbar]; split
          · exact List.filter_eq_nil_iff.mpr
              (fun c hc => by simp [changeLayout_cmds_barriers st.img _ _ c hc])
          · rfl
        have happFilter :
            (applyCmdsFor st.img u).filter (fun c => !c.isBarrierCmd) =
              applyCmdsFor st.img u :=
          List.filter_eq_self.mpr
            (fun c hc => by simp [applyCmdsFor_nonbarrier st.img u c hc])
        obtain ⟨ih1, ih2, ih3, ih4, ih5, ih6⟩ := ih
          { img := img', mask := m2, keep := st.keep
            cmds := st.cmds ++ bar ++ applyCmdsFor st.img u }
        refine ⟨by rw [ih1]; exact hL, by rw [ih2]; exact hF, by rw [ih3]; exact hS,
          by rw [ih4]; exact hU, ?_, ?_⟩
        · rw [ih5]
          simp only [List.filter_cons, hout', Bool.false_eq_true, if_false]
          congr 1
          apply List.filter_congr
          intro v _
          rw [updateCoords_congr img' st.img hL v]
        · rw [ih6]
          simp only [List.filter_append, hbarFilter, happFilter, List.append_nil]
          have hbindC : (rest.filter
              (fun v => !(outsideWindow ls le lys lye (img'.updateCoords v)))).bind
              (applyCmdsFor img') =
              (rest.filter
                (fun v => !(outsideWindow ls le lys lye (st.img.updateCoords v)))).bind
              (applyCmdsFor st.img) := by
            have hfe : (fun v : SubresourceUpdate =>
                !(outsideWindow ls le lys lye (img'.updateCoords v))) =
                (fun v => !(outsideWindow ls le lys lye (st.img.updateCoords v))) := by
              funext v
              rw [updateCoords_congr img' st.img hL v]
            have hfg : applyCmdsFor img' = applyCmdsFor st.img :=
              funext (applyCmdsFor_congr img' st.img hL hF)
            rw [hfe, hfg]
          rw [hbindC]
          simp only [List.filter_cons, hout', Bool.not_false, if_true, List.cons_bind]
          simp [List.append_assoc]

theorem flushStagedUpdates_empty (img : ImageHelper) (ls le lys lye : Nat)
    (h : img.mSubresourceUpdates = []) :
    img.flushStagedUpdates ls le lys lye = (img, []) := by
  unfold ImageHelper.flushStagedUpdates
  rw [if_pos (by simp [h])]

/-- Full characterization of a flush over a non-empty queue: the queue becomes
the out-of-window updates, the non-barrier commands are the in-window
applications, the image's geometry and format are untouched, and the staging
buffer is flushed and then recycled exactly when nothing remains queued. -/
theorem flushStagedUpdates_nonempty (img : ImageHelper) (ls le lys lye : Nat)
    (hne : img.mSubresourceUpdates.isEmpty = false) :
    (img.flushStagedUpdates ls le lys lye).1.mSubresourceUpdates =
      img.mSubresourceUpdates.filter
        (fun u => outsideWindow ls le lys lye (img.updateCoords u)) ∧
    (img.flushStagedUpdates ls le lys lye).2.filter (fun c => !c.isBarrierCmd) =
      (img.mSubresourceUpdates.filter
        (fun u => !(outsideWindow ls le lys lye (img.updateCoords u)))).bind
        (applyCmdsFor img) ∧
    (img.flushStagedUpdates ls le lys lye).1.mLayerCount = img.mLayerCount ∧
    (img.flushStagedUpdates ls le lys lye).1.formatIsDepthStencil =
      img.formatIsDepthStencil ∧
    (img.flushStagedUpdates ls le lys lye).1.mStagingBuffer =
      (if (img.mSubresourceUpdates.filter
          (fun u => outsideWindow ls le lys lye (img.updateCoords u))).isEmpty then
        ((img.mStagingBuffer.flush).releaseInFlightBuffers).1
      else img.mStagingBuffer.flush) := by
  unfold ImageHelper.flushStagedUpdates
  rw [if_neg (by simp [hne])]
  dsimp only
  set img1 : ImageHelper := { img with mStagingBuffer := img.mStagingBuffer.flush }
    with himg1
  set start := img1.changeLayout img1.aspectFlags ImageLayout.TransferDst with hstart
  have hpres := changeLayout_preserves img1 img1.aspectFlags ImageLayout.TransferDst
  obtain ⟨f1, f2, f3, f4, f5, f6⟩ := flushFold_spec ls le lys lye
    img1.mSubresourceUpdates { img := start.1, mask := 0, keep := [], cmds := start.2 }
  have hL0 : start.1.mLayerCount = img.mLayerCount := by
    rw [← hstart] at hpres
    exact hpres.2.1
  have hF0 : start.1.formatIsDepthStencil = img.formatIsDepthStencil := by
    rw [← hstart] at hpres
    exact hpres.2.2.1
  have hS0 : start.1.mStagingBuffer = img.mStagingBuffer.flush := by
    rw [← hstart] at hpres
    exact hpres.2.2.2.2.2
  have hU1 : img1.mSubresourceUpdates = img.mSubresourceUpdates := rfl
  have hpredC : ∀ u : SubresourceUpdate,
      start.1.updateCoords u = img.updateCoords u := fun u =>
    updateCoords_congr start.1 img hL0 u
  have hkeep : (img1.mSubresourceUpdates.foldl (flushStep ls le lys lye)
      { img := start.1, mask := 0, keep := [], cmds := start.2 }).keep =
      img.mSubresourceUpdates.filter
        (fun u => outsideWindow ls le lys lye (img.updateCoords u)) := by
    rw [f5, hU1]
    simp only [List.nil_append]
    apply List.filter_congr
    intro v _
    rw [hpredC v]
  have hstaging : (List.foldl (flushStep ls le lys lye)
      { img := start.1, mask := 0, keep := [], cmds := start.2 }
      img1.mSubresourceUpdates).img.mStagingBuffer = img.mStagingBuffer.flush :=
    f3.trans hS0
  refine ⟨?_, ?_, ?_, ?_, ?_⟩
  · split
    · exact hkeep
    · exact hkeep
  · rw [f6]
    have hstartBar : start.2.filter (fun c => !c.isBarrierCmd) = [] :=
      List.filter_eq_nil_iff.mpr
        (fun c hc => by simp [changeLayout_cmds_barriers img1 _ _ c hc])
    rw [hstartBar, hU1]
    simp only [List.nil_append]
    have hfe : (fun v : SubresourceUpdate =>
        !(outsideWindow ls le lys lye (start.1.updateCoords v))) =
        (fun v => !(outsideWindow ls le lys lye (img.updateCoords v))) := by
      funext v
      rw [hpredC v]
    have hfg : applyCmdsFor start.1 = applyCmdsFor img :=
      funext (applyCmdsFor_congr start.1 img hL0 hF0)
    rw [hfe, hfg]
  · split
    · exact f1.trans hL0
    · exact f1.trans hL0
  · split
    · exact f2.trans hF0
    · exact f2.trans hF0
  · rw [hkeep]
    split
    · exact congrArg (fun s => (s.releaseInFlightBuffers).1) hstaging
    · exact hstaging

/-- Claim C3. A `flushStagedUpdates(levelStart, levelEnd, layerStart, layerEnd)`
call on a non-empty queue walks the queue in order and keeps exactly the
updates whose mip level is outside `[levelStart, levelEnd)` or whose layer
range does not intersect `[layerStart, layerEnd)`; every in-window update is
applied (its application commands are recorded, in order) and removed.  A
subsequent flush whose window covers everything that remained queued leaves
the queue empty. -/
theorem c3_flush_window (img : ImageHelper) (ls le lys lye : Nat)
    (hne : img.mSubresourceUpdates ≠ []) :
    (img.flushStagedUpdates ls le lys lye).1.mSubresourceUpdates =
      img.mSubresourceUpdates.filter
        (fun u => outsideWindow ls le lys lye (img.updateCoords u)) ∧
    (img.flushStagedUpdates ls le lys lye).2.filter (fun c => !c.isBarrierCmd) =
      (img.mSubresourceUpdates.filter
        (fun u => !(outsideWindow ls le lys lye (img.updateCoords u)))).bind
        (applyCmdsFor img) ∧
    (∀ ls2 le2 lys2 lye2 : Nat,
      (∀ u ∈ (img.flushStagedUpdates ls le lys lye).1.mSubresourceUpdates,
        outsideWindow ls2 le2 lys2 lye2
          ((img.flushStagedUpdates ls le lys lye).1.updateCoords u) = false) →
      ((img.flushStagedUpdates ls le lys lye).1.flushStagedUpdates
        ls2 le2 lys2 lye2).1.mSubresourceUpdates = []) := by
  have hne' : img.mSubresourceUpdates.isEmpty = false := by
    simpa [List.isEmpty_iff] using hne
  obtain ⟨h1, h2, -, -, -⟩ := flushStagedUpdates_nonempty img ls le lys lye hne'
  refine ⟨h1, h2, ?_⟩
  intro ls2 le2 lys2 lye2 hall
  by_cases hkept : (img.flushStagedUpdates ls le lys lye).1.mSubresourceUpdates = []
  · rw [flushStagedUpdates_empty _ ls2 le2 lys2 lye2 hkept]
    exact hkept
  · obtain ⟨g1, -, -, -, -⟩ := flushStagedUpdates_nonempty
      (img.flushStagedUpdates ls le lys lye).1 ls2 le2 lys2 lye2
      (by simpa [List.isEmpty_iff] using hkept)
    rw [g1]
    exact List.filter_eq_nil_iff.mpr (fun u hu => by simp [hall u hu])

/-- A three-update queue for the C3/C4/C10 witnesses: a buffer upload at
(level 0, layers 0-1), a whole-level clear at level 1, and another buffer
upload at (level 0, layer 0). -/
def c3img : ImageHelper :=
  { mCurrentLayout := .TransferDst, mCurrentQueueFamilyIndex := 0, mLevelCount := 3
    mLayerCount := 2, formatIsDepthStencil := false, aspectFlags := 1
    mSubresourceUpdates :=
      [{ updateSource := .Buffer, level := 0, baseLayer := 0, layerCount := 2 },
       { updateSource := .Clear, level := 1, baseLayer := 0, layerCount := kEntireLevel },
       { updateSource := .Buffer, level := 0, baseLayer := 0, layerCount := 1 }]
    mStagingBuffer := dbEmpty }

/-- Witness for `c3_flush_window`: flushing levels `[0,1)` keeps exactly the
level-1 clear, and a complementary flush of levels `[1,3)` empties the
queue. -/
theorem c3_witness :
    (c3img.mSubresourceUpdates ≠ []) ∧
    ((c3img.flushStagedUpdates 0 1 0 2).1.mSubresourceUpdates =
      c3img.mSubresourceUpdates.filter
        (fun u => outsideWindow 0 1 0 2 (c3img.updateCoords u)) ∧
    (c3img.flushStagedUpdates 0 1 0 2).2.filter (fun c => !c.isBarrierCmd) =
      (c3img.mSubresourceUpdates.filter
        (fun u => !(outsideWindow 0 1 0 2 (c3img.updateCoords u)))).bind
        (applyCmdsFor c3img)) ∧
    ((c3img.flushStagedUpdates 0 1 0 2).1.flushStagedUpdates
      1 3 0 2).1.mSubresourceUpdates = [] :=
  ⟨by decide,
    ⟨(c3_flush_window c3img 0 1 0 2 (by decide)).1,
      (c3_flush_window c3img 0 1 0 2 (by decide)).2.1⟩,
    (c3_flush_window c3img 0 1 0 2 (by decide)).2.2 1 3 0 2 (by decide)⟩

/-- Claim C10 (amended). After a `flushStagedUpdates` call that found a
non-empty queue, the staging buffer's in-flight generations are handed back
for recycling (`releaseInFlightBuffers`) if and only if the queue is empty
after the flush; a flush that leaves any update queued recycles nothing, and —
contrary to the claim's "if and only if the queue is empty after" — a call on
an initially empty queue is a complete no-op that recycles nothing either. -/
theorem c10_staging_recycle (img : ImageHelper) (ls le lys lye : Nat) :
    (img.mSubresourceUpdates = [] → img.flushStagedUpdates ls le lys lye = (img, [])) ∧
    (img.mSubresourceUpdates ≠ [] →
      ((img.flushStagedUpdates ls le lys lye).1.mSubresourceUpdates = [] →
        (img.flushStagedUpdates ls le lys lye).1.mStagingBuffer.mInFlightBuffers = [] ∧
        (img.flushStagedUpdates ls le lys lye).1.mStagingBuffer.mBufferFreeList =
          img.mStagingBuffer.mBufferFreeList ++
            img.mStagingBuffer.mInFlightBuffers.filter
              (fun b => ¬ b.size < img.mStagingBuffer.mSize)) ∧
      ((img.flushStagedUpdates ls le lys lye).1.mSubresourceUpdates ≠ [] →
        (img.flushStagedUpdates ls le lys lye).1.mStagingBuffer.mInFlightBuffers =
          img.mStagingBuffer.mInFlightBuffers ∧
        (img.flushStagedUpdates ls le lys lye).1.mStagingBuffer.mBufferFreeList =
          img.mStagingBuffer.mBufferFreeList)) := by
  constructor
  · intro h
    exact flushStagedUpdates_empty img ls le lys lye h
  · intro hne
    have hne' : img.mSubresourceUpdates.isEmpty = false := by
      simpa [List.isEmpty_iff] using hne
    obtain ⟨h1, -, -, -, h5⟩ := flushStagedUpdates_nonempty img ls le lys lye hne'
    constructor
    · intro hempty
      rw [h1] at hempty
      rw [h5, if_pos (by simp [hempty])]
      constructor
      · rfl
      · show ((img.mStagingBuffer.flush).mBufferFreeList ++ _) = _
        rw [flush_mBufferFreeList, flush_mInFlightBuffers, flush_mSize]
    · intro hnonempty
      rw [h1] at hnonempty
      rw [h5, if_neg (by simpa [List.isEmpty_iff] using hnonempty)]
      exact ⟨flush_mInFlightBuffers _, flush_mBufferFreeList _⟩

/-- Image with an empty update queue but a non-empty staging in-flight list,
for the C10 counterexample. -/
def c10img : ImageHelper :=
  { mCurrentLayout := .TransferDst, mCurrentQueueFamilyIndex := 0, mLevelCount := 1
    mLayerCount := 1, formatIsDepthStencil := false, aspectFlags := 1
    mSubresourceUpdates := []
    mStagingBuffer :=
      { dbEmpty with mInFlightBuffers := [{ id := 0, size := 16, queueSerial := 1 }] } }

/-- Claim C10 counterexample. A `flushStagedUpdates` call on an initially empty
queue ends with an empty queue, yet the staging buffer's in-flight generation
is *not* handed back for recycling (it stays in-flight), contradicting the
claimed "if and only if the pending-update queue is empty after the flush". -/
theorem c10_counterexample :
    (c10img.flushStagedUpdates 0 1 0 1).1.mSubresourceUpdates = [] ∧
    (c10img.flushStagedUpdates 0 1 0 1).1.mStagingBuffer.mInFlightBuffers =
      [{ id := 0, size := 16, queueSerial := 1 }] ∧
    ([{ id := 0, size := 16, queueSerial := 1 }] : List BufferHelper) ≠ [] :=
  ⟨rfl, rfl, by decide⟩

/-- Witness for `c10_staging_recycle`, exercising both the recycling flush
(whole window, queue drained) and the non-recycling flush (partial window,
updates left queued) on a queue of three updates. -/
theorem c10_witness :
    ((c3img.flushStagedUpdates 0 3 0 2).1.mStagingBuffer.mInFlightBuffers = [] ∧
      (c3img.flushStagedUpdates 0 3 0 2).1.mStagingBuffer.mBufferFreeList =
        c3img.mStagingBuffer.mBufferFreeList ++
          c3img.mStagingBuffer.mInFlightBuffers.filter
            (fun b => ¬ b.size < c3img.mStagingBuffer.mSize)) ∧
    ((c3img.flushStagedUpdates 0 1 0 2).1.mStagingBuffer.mInFlightBuffers =
        c3img.mStagingBuffer.mInFlightBuffers ∧
      (c3img.flushStagedUpdates 0 1 0 2).1.mStagingBuffer.mBufferFreeList =
        c3img.mStagingBuffer.mBufferFreeList) :=
  ⟨((c10_staging_recycle c3img 0 3 0 2).2 (by decide)).1 (by decide),
    ((c10_staging_recycle c3img 0 1 0 2).2 (by decide)).2 (by decide)⟩

/-! Section: Helper lemmas: the 64-bit hazard mask -/

theorem rotl64_testBit (x r b : Nat) (hx : x < 2 ^ 64) (hr : r < 64) (hb : b < 64) :
    (rotl64 x r).testBit b = x.testBit ((b + 64 - r) % 64) := by
  unfold rotl64
  rw [Nat.mod_eq_of_lt hr]
  rw [Nat.testBit_mod_two_pow]
  simp only [hb, decide_True, Bool.true_and]
  rw [Nat.testBit_lor, Nat.testBit_shiftLeft, Nat.testBit_shiftRight]
  by_cases hbr : r ≤ b
  · have h1 : x.testBit (64 - r + b) = false := by
      apply Nat.testBit_lt_two_pow
      calc x < 2 ^ 64 := hx
        _ ≤ 2 ^ (64 - r + b) := Nat.pow_le_pow_right (by omega) (by omega)
    have h2 : (b + 64 - r) % 64 = b - r := by omega
    simp [hbr, h1, h2]
  · have h2 : (b + 64 - r) % 64 = 64 - r + b := by omega
    simp [hbr, h2]

theorem hash_testBit (L lvl base cnt layer : Nat) (hcnt : cnt < 64)
    (hl : base ≤ layer) (hr : layer < base + cnt) :
    (rotl64 (2 ^ cnt - 1) ((lvl * L + base) % 64)).testBit ((lvl * L + layer) % 64) =
      true := by
  have hx : (2 : Nat) ^ cnt - 1 < 2 ^ 64 := by
    have : (2 : Nat) ^ cnt ≤ 2 ^ 64 := Nat.pow_le_pow_right (by omega) (by omega)
    omega
  rw [rotl64_testBit _ _ _ hx (Nat.mod_lt _ (by omega)) (Nat.mod_lt _ (by omega))]
  rw [Nat.testBit_two_pow_sub_one]
  simp only [decide_eq_true_eq]
  omega

theorem mask_and_ne_zero (mask hash b : Nat)
    (hm : mask.testBit b = true) (hh : hash.testBit b = true) :
    mask &&& hash ≠ 0 := by
  intro h0
  have := Nat.testBit_land mask hash b
  rw [h0, hm, hh] at this
  simp at this

theorem hazardStep_flag_false (L mask lvl base cnt : Nat)
    (h : (subresourceHazardStep L mask lvl base cnt).1 = false) :
    cnt < 64 ∧
    (subresourceHazardStep L mask lvl base cnt).2 =
      mask ||| rotl64 (2 ^ cnt - 1) ((lvl * L + base) % 64) := by
  unfold subresourceHazardStep at h ⊢
  by_cases h64 : kMaxParallelSubresourceUpload ≤ cnt
  · rw [if_pos h64] at h
    simp at h
  · rw [if_neg h64] at h ⊢
    by_cases hov : mask &&& rotl64 (2 ^ cnt - 1)
        ((lvl * L + base) % kMaxParallelSubresourceUpload) ≠ 0
    · rw [if_pos hov] at h
      simp at h
    · rw [if_neg hov]
      refine ⟨by simpa [kMaxParallelSubresourceUpload] using h64, rfl⟩

/-- After processing an update that touches `(level, layer)`, the mask has the
bit `(level * L + layer) % 64` set, whatever branch was taken. -/
theorem hazardStep_mask_testBit (L mask lvl base cnt level layer : Nat)
    (hlvl : lvl = level) (hl : base ≤ layer) (hr : layer < base + cnt) :
    ((subresourceHazardStep L mask lvl base cnt).2).testBit
      ((level * L + layer) % 64) = true := by
  subst hlvl
  unfold subresourceHazardStep
  by_cases h64 : kMaxParallelSubresourceUpload ≤ cnt
  · rw [if_pos h64]
    rw [Nat.testBit_two_pow_sub_one]
    simp only [decide_eq_true_eq]
    omega
  · rw [if_neg h64]
    have hcnt : cnt < 64 := by simpa [kMaxParallelSubresourceUpload] using h64
    have hh := hash_testBit L lvl base cnt layer hcnt hl hr
    by_cases hov : mask &&& rotl64 (2 ^ cnt - 1)
        ((lvl * L + base) % kMaxParallelSubresourceUpload) ≠ 0
    · rw [if_pos hov]
      simpa [kMaxParallelSubresourceUpload] using hh
    · rw [if_neg hov]
      rw [Nat.testBit_lor]
      simp only [kMaxParallelSubresourceUpload] at hh ⊢
      rw [hh]
      simp

theorem hazardFlags_cons (L mask : Nat) (c : Nat × Nat × Nat)
    (rest : List (Nat × Nat × Nat)) :
    hazardFlags L mask (c :: rest) =
      (subresourceHazardStep L mask c.1 c.2.1 c.2.2).1 ::
        hazardFlags L (subresourceHazardStep L mask c.1 c.2.1 c.2.2).2 rest := rfl

/-- Processing `c` sets (or saturates past) mask bit `b`. -/
def coversBit (L : Nat) (c : Nat × Nat × Nat) (b : Nat) : Prop :=
  64 ≤ c.2.2 ∨
  ∃ layer, c.2.1 ≤ layer ∧ layer < c.2.1 + c.2.2 ∧ b = (c.1 * L + layer) % 64

/-- If bit `b` is set in the running mask and no barrier is inserted before
position `j`, then an update at `j` that covers bit `b` forces a barrier. -/
theorem hazard_core (L : Nat) :
    ∀ (cs : List (Nat × Nat × Nat)) (mask b j : Nat),
      mask.testBit b = true →
      (∀ k, k < j → (hazardFlags L mask cs).getD k false = false) →
      j < cs.length →
      coversBit L (cs.getD j (0, 0, 0)) b →
      (hazardFlags L mask cs).getD j false = true := by
  intro cs
  induction cs with
  | nil =>
      intro mask b j _ _ hj _
      simp at hj
  | cons c rest ih =>
      intro mask b j hm hflags hj hcov
      cases j with
      | zero =>
          rw [hazardFlags_cons]
          simp only [List.getD_cons_zero]
          rcases hcov with h64 | ⟨layer, hl, hr, hb⟩
          · simp only [List.getD_cons_zero] at h64
            unfold subresourceHazardStep
            rw [if_pos (by simpa [kMaxParallelSubresourceUpload] using h64)]
          · simp only [List.getD_cons_zero] at hl hr hb
            by_cases h64 : kMaxParallelSubresourceUpload ≤ c.2.2
            · unfold subresourceHazardStep
              rw [if_pos h64]
            · have hcnt : c.2.2 < 64 := by
                simpa [kMaxParallelSubresourceUpload] using h64
              have hh := hash_testBit L c.1 c.2.1 c.2.2 layer hcnt hl hr
              have hne := mask_and_ne_zero mask _ b hm (by rw [hb]; exact hh)
              unfold subresourceHazardStep
              rw [if_neg h64]
              rw [if_pos (by simpa [kMaxParallelSubresourceUpload] using hne)]
      | succ n =>
          rw [hazardFlags_cons]
          simp only [List.getD_cons_succ]
          have hflag0 : (subresourceHazardStep L mask c.1 c.2.1 c.2.2).1 = false := by
            have := hflags 0 (Nat.succ_pos n)
            rw [hazardFlags_cons] at this
            simpa using this
          obtain ⟨-, hmask⟩ := hazardStep_flag_false L mask c.1 c.2.1 c.2.2 hflag0
          apply ih _ b n
          · rw [hmask, Nat.testBit_lor, hm]
            simp
          · intro k hk
            have := hflags (k + 1) (by omega)
            rw [hazardFlags_cons] at this
            simpa using this
          · simpa using hj
          · simpa using hcov

/-- No false negatives: whenever two in-window updates touch a common
`(level, layer)` subresource, a barrier is inserted at some position after the
first and no later than the second. -/
theorem hazard_separation (L : Nat) :
    ∀ (cs : List (Nat × Nat × Nat)) (mask i j level layer : Nat),
      i < j → j < cs.length →
      touches (cs.getD i (0, 0, 0)) level layer →
      touches (cs.getD j (0, 0, 0)) level layer →
      ∃ k, i < k ∧ k ≤ j ∧ (hazardFlags L mask cs).getD k false = true := by
  intro cs
  induction cs with
  | nil =>
      intro mask i j _ _ hij hj _
      simp at hj
  | cons c rest ih =>
      intro mask i j level layer hij hj hti htj
      cases i with
      | zero =>
          obtain ⟨hc1, hc2, hc3⟩ := hti
          simp only [List.getD_cons_zero] at hc1 hc2 hc3
          have hm1 := hazardStep_mask_testBit L mask c.1 c.2.1 c.2.2 level layer
            hc1 hc2 hc3
          cases j with
          | zero => omega
          | succ n =>
              obtain ⟨ht1, ht2, ht3⟩ := htj
              simp only [List.getD_cons_succ] at ht1 ht2 ht3
              have hcov : coversBit L (rest.getD n (0, 0, 0))
                  ((level * L + layer) % 64) :=
                Or.inr ⟨layer, ht2, ht3, by rw [ht1]⟩
              by_cases hex : ∃ k, k < n ∧ (hazardFlags L
                  (subresourceHazardStep L mask c.1 c.2.1 c.2.2).2 rest).getD k false =
                    true
              · obtain ⟨k, hk, hkt⟩ := hex
                refine ⟨k + 1, by omega, by omega, ?_⟩
                rw [hazardFlags_cons]
                simpa using hkt
              · push_neg at hex
                have hflagsn : ∀ k, k < n → (hazardFlags L
                    (subresourceHazardStep L mask c.1 c.2.1 c.2.2).2 rest).getD k false =
                      false := by
                  intro k hk
                  have := hex k hk
                  simpa using this
                have hcore := hazard_core L rest _ ((level * L + layer) % 64) n hm1
                  hflagsn (by simpa using hj) hcov
                refine ⟨n + 1, by omega, Nat.le_refl _, ?_⟩
                rw [hazardFlags_cons]
                simpa using hcore
      | succ m =>
          cases j with
          | zero => omega
          | succ n =>
              obtain ⟨k, hk1, hk2, hk3⟩ := ih
                (subresourceHazardStep L mask c.1 c.2.1 c.2.2).2 m n level layer
                (by omega) (by simpa using hj) (by simpa using hti) (by simpa using htj)
              refine ⟨k + 1, by omega, by omega, ?_⟩
              rw [hazardFlags_cons]
              simpa using hk3

/-- A layout change to TransferDst always records exactly one barrier: the
same-layout case is a (full) barrier because TransferDst requires one, and any
other current layout is an actual transition. -/
theorem changeLayout_toTransferDst_cmds (img : ImageHelper) (a : Nat) :
    ∃ (s d : Nat) (bar : VkImageMemoryBarrier),
      (img.changeLayout a ImageLayout.TransferDst).2 = [Command.imageBarrier s d bar] := by
  by_cases h : img.mCurrentLayout = ImageLayout.TransferDst
  · rw [changeLayout_same_TransferDst img a h]
    exact ⟨_, _, _, rfl⟩
  · have hnec : img.isLayoutChangeNecessary ImageLayout.TransferDst = true := by
      simp [ImageHelper.isLayoutChangeNecessary, h]
    unfold ImageHelper.changeLayout
    rw [if_neg (by simp [hnec])]
    unfold ImageHelper.forceChangeLayoutAndQueue
    rw [if_neg (by simp [h])]
    exact ⟨_, _, _, rfl⟩

theorem changeLayout_toTransferDst_barrier_count (img : ImageHelper) (a : Nat) :
    ((img.changeLayout a ImageLayout.TransferDst).2).countP Command.isBarrierCmd = 1 := by
  obtain ⟨s, d, bar, heq⟩ := changeLayout_toTransferDst_cmds img a
  rw [heq]
  rfl

/-- Claim C4. The 64-bit recently-touched bitmask over in-window updates: an
in-window update's barrier decision and next mask are those of
`subresourceHazardStep`, and the decision records exactly one fresh
TransferDst barrier when set; an update with 64 or more layers forces a
barrier and saturates the mask; a narrower update tests the bit range of
width `layerCount` rotated to `(level * layerCount + baseLayer) mod 64` —
barrier and mask reset on overlap, plain OR otherwise; and consequently a
barrier always separates two in-window updates that touch the same
`(level, layer)` subresource (no false negatives). -/
theorem c4_hazard_mask_no_false_negatives :
    (∀ (ls le lys lye : Nat) (st : FlushState) (u : SubresourceUpdate),
      outsideWindow ls le lys lye (st.img.updateCoords u) = false →
      (flushStep ls le lys lye st u).mask =
        (subresourceHazardStep st.img.mLayerCount st.mask (st.img.updateCoords u).1
          (st.img.updateCoords u).2.1 (st.img.updateCoords u).2.2).2 ∧
      (flushStep ls le lys lye st u).cmds.countP Command.isBarrierCmd =
        st.cmds.countP Command.isBarrierCmd +
          (if (subresourceHazardStep st.img.mLayerCount st.mask
              (st.img.updateCoords u).1 (st.img.updateCoords u).2.1
              (st.img.updateCoords u).2.2).1 then 1 else 0)) ∧
    (∀ L mask lvl base cnt : Nat, 64 ≤ cnt →
      subresourceHazardStep L mask lvl base cnt = (true, 2 ^ 64 - 1)) ∧
    (∀ L mask lvl base cnt : Nat, cnt < 64 →
      subresourceHazardStep L mask lvl base cnt =
        (if mask &&& rotl64 (2 ^ cnt - 1) ((lvl * L + base) % 64) ≠ 0 then
          (true, rotl64 (2 ^ cnt - 1) ((lvl * L + base) % 64))
        else (false, mask ||| rotl64 (2 ^ cnt - 1) ((lvl * L + base) % 64)))) ∧
    (∀ (L mask : Nat) (cs : List (Nat × Nat × Nat)) (i j level layer : Nat),
      i < j → j < cs.length →
      touches (cs.getD i (0, 0, 0)) level layer →
      touches (cs.getD j (0, 0, 0)) level layer →
      ∃ k, i < k ∧ k ≤ j ∧ (hazardFlags L mask cs).getD k false = true) := by
  refine ⟨?_, ?_, ?_, fun L mask cs => hazard_separation L cs mask⟩
  · intro ls le lys lye st u hin
    rw [flushStep_inside ls le lys lye st u hin]
    refine ⟨rfl, ?_⟩
    show (st.cmds ++ _ ++ applyCmdsFor st.img u).countP Command.isBarrierCmd = _
    rw [List.countP_append, List.countP_append]
    have happ : (applyCmdsFor st.img u).countP Command.isBarrierCmd = 0 :=
      List.countP_eq_zero.mpr
        (fun c hc => by simp [applyCmdsFor_nonbarrier st.img u c hc])
    rw [happ]
    split
    · rw [changeLayout_toTransferDst_barrier_count]
    · simp
  · intro L mask lvl base cnt h64
    unfold subresourceHazardStep
    rw [if_pos (by simpa [kMaxParallelSubresourceUpload] using h64)]
  · intro L mask lvl base cnt hlt
    unfold subresourceHazardStep
    rw [if_neg (by simp [kMaxParallelSubresourceUpload]; omega)]
    rfl

/-- Witness for `c4_hazard_mask_no_false_negatives`, with each hypothesis
discharged at concrete inputs: an in-window buffer update, a 64-layer update,
a 2-layer update, and the three-update trace `[(0,0,2), (1,0,2), (0,0,1)]`
whose first and third updates touch `(level 0, layer 0)`. -/
theorem c4_witness :
    ((flushStep 0 3 0 2 { img := c3img, mask := 0, keep := [], cmds := [] }
        { updateSource := .Buffer, level := 0, baseLayer := 0, layerCount := 2 }).mask =
      (subresourceHazardStep c3img.mLayerCount 0
        (c3img.updateCoords
          { updateSource := .Buffer, level := 0, baseLayer := 0, layerCount := 2 }).1
        (c3img.updateCoords
          { updateSource := .Buffer, level := 0, baseLayer := 0, layerCount := 2 }).2.1
        (c3img.updateCoords
          { updateSource := .Buffer, level := 0, baseLayer := 0, layerCount := 2 }).2.2).2 ∧
      (flushStep 0 3 0 2 { img := c3img, mask := 0, keep := [], cmds := [] }
        { updateSource := .Buffer, level := 0, baseLayer := 0,
          layerCount := 2 }).cmds.countP Command.isBarrierCmd =
        (([] : List Command)).countP Command.isBarrierCmd +
          (if (subresourceHazardStep c3img.mLayerCount 0
              (c3img.updateCoords
                { updateSource := .Buffer, level := 0, baseLayer := 0, layerCount := 2 }).1
              (c3img.updateCoords
                { updateSource := .Buffer, level := 0, baseLayer := 0, layerCount := 2 }).2.1
              (c3img.updateCoords
                { updateSource := .Buffer, level := 0, baseLayer := 0,
                  layerCount := 2 }).2.2).1 then 1 else 0)) ∧
    subresourceHazardStep 1 0 0 0 64 = (true, 2 ^ 64 - 1) ∧
    subresourceHazardStep 2 0 0 0 2 =
      (if (0 : Nat) &&& rotl64 (2 ^ 2 - 1) ((0 * 2 + 0) % 64) ≠ 0 then
        (true, rotl64 (2 ^ 2 - 1) ((0 * 2 + 0) % 64))
      else (false, (0 : Nat) ||| rotl64 (2 ^ 2 - 1) ((0 * 2 + 0) % 64))) ∧
    (∃ k, 0 < k ∧ k ≤ 2 ∧
      (hazardFlags 2 0 [(0, 0, 2), (1, 0, 2), (0, 0, 1)]).getD k false = true) :=
  ⟨c4_hazard_mask_no_false_negatives.1 0 3 0 2
      { img := c3img, mask := 0, keep := [], cmds := [] }
      { updateSource := .Buffer, level := 0, baseLayer := 0, layerCount := 2 }
      (by decide),
    c4_hazard_mask_no_false_negatives.2.1 1 0 0 0 64 (by decide),
    c4_hazard_mask_no_false_negatives.2.2.1 2 0 0 0 2 (by decide),
    c4_hazard_mask_no_false_negatives.2.2.2 2 0 [(0, 0, 2), (1, 0, 2), (0, 0, 1)]
      0 2 0 0 (by decide) (by decide) (by exact ⟨rfl, by decide, by decide⟩)
      (by exact ⟨rfl, by decide, by decide⟩)⟩

end AngleVk
